import Mathlib

/-!
# Surveillance front-end: authentication, route guard, live frame channel

A shallow embedding of `src/context/AuthContext.js`,
`src/components/ProtectedRoute.js`, `src/components/CameraView.js`, the camera
selection of `src/LiveView.js`, the tabs of `src/App.js`, loading and paging of
`src/RecordingsView.js`, grouping and paging of `src/ClothingSearchView.js` and
saving and deleting in `src/UserManagementPanel.js`.

* JavaScript objects with string-valued own properties are association lists
  in insertion order (`JsRecord`).
* The React state of `AuthProvider` (`user`, `loading`) and the `'token'` entry
  of `localStorage` are the three fields of `AuthWorld`; a handler is a function
  from the world before it runs to the world after it has run.
* The network is a parameter `fetch : FetchCall → FetchOutcome β`: what the
  platform's `fetch` answers to a request.  A function that may issue requests
  also returns the list of requests it issued.
* A thrown JavaScript error is represented by its `message`.
* The text of a WebSocket message is evaluated by the handler in its own scope;
  a message is modelled by the calls its text makes there and by the value the
  evaluation ends with (`MessageEvent`).
* Role levels are natural numbers (`ROLE_VIEWER = 1`, `ROLE_OPERATOR = 2`,
  `ROLE_ADMIN = 3`).
-/

namespace Frontend

/-! ## JavaScript values -/

/-- An object whose own enumerable properties are strings, in insertion order. -/
abbrev JsRecord := List (String × String)

/-- Property read `o[k]`: `none` stands for `undefined`. -/
def JsRecord.get (o : JsRecord) (k : String) : Option String :=
  match o with
  | [] => none
  | (k', v') :: rest => if k' = k then some v' else JsRecord.get rest k

/-- Property write `o[k] = v`: an existing property keeps its position and takes
the new value, a new property is appended. -/
def JsRecord.set (o : JsRecord) (k v : String) : JsRecord :=
  match o with
  | [] => [(k, v)]
  | (k', v') :: rest => if k' = k then (k, v) :: rest else (k', v') :: JsRecord.set rest k v

/-- Object spread of `a` followed by `b`: the properties of `b` written over a copy of `a`. -/
def JsRecord.spread (a b : JsRecord) : JsRecord :=
  b.foldl (fun acc kv => JsRecord.set acc kv.1 kv.2) a

/-- Truthiness of a value that is a string, `null` or `undefined`: only a
non-empty string is truthy. -/
def truthyStr : Option String → Bool
  | none => false
  | some s => s != ""

/-- Truthiness of a value that is a number or `undefined`: `0` is falsy. -/
def truthyNum : Option Nat → Bool
  | none => false
  | some n => n != 0

/-- One hexadecimal digit, lower case. -/
def hexDigit (n : Nat) : Char :=
  if n < 10 then Char.ofNat (48 + n) else Char.ofNat (87 + n)

/-- The escape `JSON.stringify` writes for one character of a string. -/
def jsonEscapeChar (c : Char) : String :=
  if c = '"' then "\\\""
  else if c = '\\' then "\\\\"
  else if c.toNat = 8 then "\\b"
  else if c.toNat = 12 then "\\f"
  else if c = '\n' then "\\n"
  else if c = '\r' then "\\r"
  else if c = '\t' then "\\t"
  else if c.toNat < 32 then
    "\\u00" ++ String.mk [hexDigit (c.toNat / 16), hexDigit (c.toNat % 16)]
  else String.mk [c]

/-- The text `JSON.stringify` gives for a string value. -/
def jsonQuote (s : String) : String :=
  "\"" ++ String.join (s.toList.map jsonEscapeChar) ++ "\""

/-- The text `JSON.stringify` gives for an object with string-valued properties. -/
def JSON_stringify (o : JsRecord) : String :=
  "\x7b" ++ String.intercalate "," (o.map (fun kv => jsonQuote kv.1 ++ ":" ++ jsonQuote kv.2)) ++ "\x7d"

/-! ## Network -/

/-- The second argument of `fetch`: its `headers` property (absent: `none`) and
its other own properties (`method`, `body`, ...). -/
structure FetchInit where
  headers : Option JsRecord
  rest : JsRecord
  deriving DecidableEq, Repr

/-- One call `fetch(url, init)`. -/
structure FetchCall where
  url : String
  init : FetchInit
  deriving DecidableEq, Repr

/-- A header name in ASCII lower case: the platform compares header names
without regard to letter case. -/
def asciiLower (s : String) : String := String.mk (s.toList.map Char.toLower)

/-- The white space the platform strips from both ends of a header value. -/
def isHttpWhitespace (c : Char) : Bool :=
  c = '\t' || c = '\n' || c = '\r' || c = ' '

/-- A header value as the platform normalises it. -/
def httpTrim (s : String) : String :=
  String.mk (((s.toList.dropWhile isHttpWhitespace).reverse.dropWhile isHttpWhitespace).reverse)

/-- The value of the header `name` in the request the platform builds from a
headers record it accepts: the values of all properties whose name is `name` up
to letter case, each normalised, joined by a comma and a space in the order of
the properties; `none` when there is no such property. -/
def requestHeader (headers : JsRecord) (name : String) : Option String :=
  match (headers.filter (fun kv => asciiLower kv.1 = asciiLower name)).map
      (fun kv => httpTrim kv.2) with
  | [] => none
  | values => some (String.intercalate ", " values)

/-- A response: its status code and what `response.json()` resolves to
(`Except.error message` when the body cannot be decoded). -/
structure Response (β : Type) where
  status : Nat
  json : Except String β

/-- The `ok` property of a response: status in the range 200-299. -/
def Response.ok {β : Type} (r : Response β) : Bool :=
  decide (200 ≤ r.status) && decide (r.status ≤ 299)

/-- What awaiting `fetch(...)` gives: a rejection (transport failure) or a response. -/
inductive FetchOutcome (β : Type) where
  | rejected (message : String)
  | resolved (response : Response β)

/-! ## Authentication context -/

/-- The user object the backend returns. -/
structure User where
  id : Nat
  username : String
  role : Nat
  deriving DecidableEq, Repr

def ROLE_VIEWER : Nat := 1
def ROLE_OPERATOR : Nat := 2
def ROLE_ADMIN : Nat := 3

/-- State of `AuthProvider` together with the `'token'` entry of `localStorage`
(`none`: `getItem('token')` is `null`). -/
structure AuthWorld where
  user : Option User
  loading : Bool
  token : Option String
  deriving DecidableEq, Repr

/-- State of a freshly mounted `AuthProvider` over a given `localStorage`. -/
def AuthWorld.initial (token : Option String) : AuthWorld :=
  { user := none, loading := true, token := token }

/-- `hasRole(roleLevel)`: the user has that role or a higher one. -/
def hasRole (w : AuthWorld) (roleLevel : Nat) : Bool :=
  match w.user with
  | none => false
  | some user => decide (user.role ≥ roleLevel)

/-- `hasExactRole(roleLevel)`: the user has exactly that role. -/
def hasExactRole (w : AuthWorld) (roleLevel : Nat) : Bool :=
  match w.user with
  | none => false
  | some user => decide (user.role = roleLevel)

/-- `logout()`: remove the stored token and clear the user. -/
def logout (w : AuthWorld) : AuthWorld :=
  { w with token := none, user := none }

/-- What a function that talks to the network did: the requests it issued, in
order, and what its promise settled to. -/
structure AuthFetchRun (β : Type) where
  requests : List FetchCall
  outcome : FetchOutcome β

/-- The default `options` argument of `authFetch`: the empty object. -/
def FetchInit.empty : FetchInit := { headers := none, rest := [] }

/-- `authFetch(url, options)`: throw when no token is stored, otherwise call
`fetch` with the options and the headers extended by the bearer token. -/
def authFetch {β : Type} (fetch : FetchCall → FetchOutcome β) (w : AuthWorld)
    (url : String) (options : FetchInit) : AuthFetchRun β :=
  match w.token with
  | none => { requests := [], outcome := .rejected "No hay token de autenticación disponible" }
  | some token =>
    if token = "" then
      { requests := [], outcome := .rejected "No hay token de autenticación disponible" }
    else
      let headers := JsRecord.set (JsRecord.spread [] (options.headers.getD []))
        "Authorization" ("Bearer " ++ token)
      let call : FetchCall := { url := url, init := { options with headers := some headers } }
      { requests := [call], outcome := fetch call }

/-- A property value of a decoded body as `||` and `new Error(...)` observe it:
falsy (`null`, `false`, `0`, the empty string), or truthy with the text its
conversion to a string gives (a non-empty string gives itself, an array of
objects gives `[object Object]`), or truthy with a conversion that throws and
the message of that error. -/
inductive JsObserved where
  | falsy
  | truthy (text : String)
  | unprintable (message : String)
  deriving DecidableEq, Repr

/-- A string value as it is observed. -/
def JsObserved.ofString (s : String) : JsObserved :=
  if s = "" then .falsy else .truthy s

/-- The decoded body of the answer of `POST /api/auth/login`, as far as `login`
reads it: `null`, or a value with its properties `detail`, `access_token` and
`user` (`none`: the property is absent, as are all three on a number, a string
or a boolean). -/
inductive LoginBody where
  | null
  | object (detail : Option JsObserved) (access_token : Option String) (user : Option User)
  deriving DecidableEq, Repr

/-- The property `detail` of a body that is not `null`. -/
def LoginBody.detail : LoginBody → Option JsObserved
  | .null => none
  | .object detail _ _ => detail

/-- The property `access_token` of a body that is not `null`. -/
def LoginBody.access_token : LoginBody → Option String
  | .null => none
  | .object _ access_token _ => access_token

/-- The property `user` of a body that is not `null`. -/
def LoginBody.user : LoginBody → Option User
  | .null => none
  | .object _ _ user => user

/-- The message of the `TypeError` that reading a property of `null` throws. -/
def nullReadMessage (property : String) : String :=
  "Cannot read properties of null (reading '" ++ property ++ "')"

/-- The object `login` resolves to: `success`, and `message` on failure. -/
structure LoginResult where
  success : Bool
  message : Option String
  deriving DecidableEq, Repr

/-- The request `login` sends. -/
def loginCall (username password : String) : FetchCall :=
  { url := "http://localhost:8000/api/auth/login",
    init :=
      { headers := some [("Content-Type", "application/json")],
        rest := [("method", "POST"),
                 ("body", JSON_stringify [("username", username), ("password", password)])] } }

/-- The `try` block of `login`: the world after it ran to its end, or the
message of the error thrown inside it: by `fetch`, by `response.json()`, by
reading a property of a body that is `null`, by `new Error(...)` converting a
truthy `detail` to a string, or by the `throw` of the non-success branch.
`setItem('token', undefined)` stores the text `undefined`. -/
def loginTry (fetch : FetchCall → FetchOutcome LoginBody) (w : AuthWorld)
    (username password : String) : Except String AuthWorld :=
  match fetch (loginCall username password) with
  | .rejected message => .error message
  | .resolved response =>
    if !response.ok then
      match response.json with
      | .error message => .error message
      | .ok .null => .error (nullReadMessage "detail")
      | .ok (.object detail _ _) =>
        match detail with
        | some (.truthy text) => .error text
        | some (.unprintable message) => .error message
        | some .falsy => .error "Error de autenticación"
        | none => .error "Error de autenticación"
    else
      match response.json with
      | .error message => .error message
      | .ok .null => .error (nullReadMessage "access_token")
      | .ok (.object _ access_token user) =>
        .ok { w with token := some (access_token.getD "undefined"), user := user }

/-- `login(username, password)`: the `try` block, and the `catch` that turns a
thrown error into a failure result. -/
def login (fetch : FetchCall → FetchOutcome LoginBody) (w : AuthWorld)
    (username password : String) : AuthWorld × LoginResult :=
  match loginTry fetch w username password with
  | .ok w' => (w', { success := true, message := none })
  | .error message => (w, { success := false, message := some message })

/-- The failure reasons the specification names for `login`. -/
inductive FailureReason where
  | invalidCredentials
  | networkOrServer
  deriving DecidableEq, Repr

/-- The reason the specification's words attach to a failed credential exchange:
a transport failure or a 5xx answer is a network/server error, a 401 answer is
invalid credentials (`none`: the words do not say). -/
def specFailureReason : FetchOutcome LoginBody → Option FailureReason
  | .rejected _ => some .networkOrServer
  | .resolved response =>
    if response.status = 401 then some .invalidCredentials
    else if 500 ≤ response.status then some .networkOrServer
    else none

/-- A backend that answers every request with the given status and a body
that decodes to an object without `detail`, `access_token` or `user`. -/
def emptyBodyBackend (status : Nat) : FetchCall → FetchOutcome LoginBody :=
  fun _ => .resolved { status := status, json := .ok (.object none none none) }

/-- The stub backend of the login scenario: the credentials `op1`/`correct`
are answered with a token and a user, anything else with 401. -/
def stubBackend : FetchCall → FetchOutcome LoginBody :=
  fun call =>
    if call = loginCall "op1" "correct" then
      .resolved { status := 200,
                  json := .ok (.object none (some "T")
                    (some { id := 2, username := "op1", role := 2 })) }
    else
      .resolved { status := 401,
                  json := .ok (.object
                    (some (JsObserved.ofString "Incorrect username or password")) none none) }

/-- The request `checkAuth` sends to validate a stored token. -/
def meCall (token : String) : FetchCall :=
  { url := "http://localhost:8000/api/auth/me",
    init := { headers := some [("Authorization", "Bearer " ++ token)], rest := [] } }

/-- The `try` block of `checkAuth`: the world after it ran to its end, or the
message of the error thrown inside it.  The body of the answer is the user
object (`none`: the body is `null`). -/
def checkAuthTry (fetch : FetchCall → FetchOutcome (Option User)) (w : AuthWorld) :
    Except String AuthWorld :=
  if truthyStr w.token then
    match fetch (meCall (w.token.getD "")) with
    | .rejected message => .error message
    | .resolved response =>
      if response.ok then
        match response.json with
        | .error message => .error message
        | .ok userData => .ok { w with user := userData }
      else
        .ok { w with token := none }
  else
    .ok w

/-- The `try` and `catch` blocks of `checkAuth`: the `catch` only logs the
error, so the world is the one the `try` block left. -/
def checkAuthCaught (fetch : FetchCall → FetchOutcome (Option User)) (w : AuthWorld) : AuthWorld :=
  match checkAuthTry fetch w with
  | .ok w' => w'
  | .error _ => w

/-- `checkAuth()`: the `try` and `catch` blocks, then the `finally` block that
sets `loading` to false. -/
def checkAuth (fetch : FetchCall → FetchOutcome (Option User)) (w : AuthWorld) : AuthWorld :=
  { checkAuthCaught fetch w with loading := false }

/-! ## Route guard -/

/-- What `ProtectedRoute` renders. -/
inductive Rendered where
  | loadingDiv
  | navigate (target : String)
  | children
  deriving DecidableEq, Repr

/-- The component `ProtectedRoute` under the context `w`;
`requiredRole` is `none` when the property is not passed. -/
def ProtectedRoute (w : AuthWorld) (requiredRole : Option Nat) : Rendered :=
  if w.loading then .loadingDiv
  else if w.user.isNone then .navigate "/login"
  else if truthyNum requiredRole && !hasRole w (requiredRole.getD 0) then .navigate "/unauthorized"
  else .children

/-! ## Live frame channel (`src/components/CameraView.js`)

The component holds one `WebSocket` at a time; the object the state variable
`wsConnection` refers to and the `ws` of the effect's closure are the same
object, kept in the field `wsConnection`.  Events of a socket that a later
effect run has replaced are not modelled. -/

/-- A camera as the backend lists it. -/
structure Camera where
  id : Nat
  name : String
  deriving DecidableEq, Repr

/-- The `readyState` of a `WebSocket`. -/
inductive ReadyState where
  | CONNECTING
  | OPEN
  | CLOSING
  | CLOSED
  deriving DecidableEq, Repr

/-- A `WebSocket` object: its url, its `readyState` and the data `send` has
handed to the transport, in order. -/
structure WebSocket where
  url : String
  readyState : ReadyState
  sent : List String
  deriving DecidableEq, Repr

/-- The constructor `new WebSocket(url)`. -/
def WebSocket.create (url : String) : WebSocket :=
  { url := url, readyState := .CONNECTING, sent := [] }

/-- The method `send(data)`: it throws while the socket is connecting, transmits
when it is open and discards the data when it is closing or closed. -/
def WebSocket.send (ws : WebSocket) (data : String) : Except String WebSocket :=
  match ws.readyState with
  | .CONNECTING => .error "InvalidStateError"
  | .OPEN => .ok { ws with sent := ws.sent ++ [data] }
  | .CLOSING => .ok ws
  | .CLOSED => .ok ws

/-- The method `close()`: it starts the closing handshake unless the socket is
already closing or closed. -/
def WebSocket.close (ws : WebSocket) : WebSocket :=
  match ws.readyState with
  | .CONNECTING => { ws with readyState := .CLOSING }
  | .OPEN => { ws with readyState := .CLOSING }
  | .CLOSING => ws
  | .CLOSED => ws

/-- The parts of `window.location` the component reads. -/
structure Location where
  protocol : String
  hostname : String
  host : String
  deriving DecidableEq, Repr

/-- What evaluating the text of a message gives: the evaluation throws, or it
gives a falsy value, or a truthy value with its properties `error`, `image` and
`i` (`none`: absent). -/
inductive FrameData where
  | threw (message : String)
  | falsy
  | value (error image i : Option String)
  deriving DecidableEq, Repr

/-- State of a `CameraView`: its four state variables, the `frameCount` of the
current effect run, and the urls of the sockets constructed so far. -/
structure CameraViewState where
  connectionStatus : String
  currentFrame : Option String
  wsConnection : Option WebSocket
  error : Option String
  frameCount : Nat
  created : List String
  deriving DecidableEq, Repr

/-- State of a `CameraView` before its first effect. -/
def CameraViewState.initial : CameraViewState :=
  { connectionStatus := "desconectado", currentFrame := none, wsConnection := none,
    error := none, frameCount := 0, created := [] }

/-- The constant `wsUrl` of the effect: the address of the camera's stream. -/
def wsUrl (loc : Location) (camera : Camera) : String :=
  let wsProtocol := if loc.protocol = "https:" then "wss:" else "ws:"
  let wsHost := if loc.hostname = "localhost" then "localhost:8000" else loc.host
  wsProtocol ++ "//" ++ wsHost ++ "/ws/stream/" ++ toString camera.id

/-- Body of the effect that connects to the camera. -/
def connectEffect (loc : Location) (camera : Option Camera) (s : CameraViewState) :
    CameraViewState :=
  match camera with
  | none => s
  | some camera =>
    let s1 : CameraViewState :=
      match s.wsConnection with
      | some wsConnection =>
        { s with wsConnection := some wsConnection.close, connectionStatus := "desconectado",
                 currentFrame := none }
      | none => s
    { s1 with error := none, connectionStatus := "conectando",
              wsConnection := some (WebSocket.create (wsUrl loc camera)), frameCount := 0,
              created := s1.created ++ [wsUrl loc camera] }

/-- Cleanup of the effect: close the socket unless it is closed already. -/
def cleanupEffect (s : CameraViewState) : CameraViewState :=
  match s.wsConnection with
  | some ws => if ws.readyState ≠ .CLOSED then { s with wsConnection := some ws.close } else s
  | none => s

/-- The handler `ws.onopen`. -/
def onopen (ws : WebSocket) (s : CameraViewState) : CameraViewState :=
  let s1 := { s with connectionStatus := "conectado" }
  match ws.send "ready" with
  | .ok ws' => { s1 with wsConnection := some ws' }
  | .error _ => s1

/-- A call that the text of a message can make while the handler evaluates it:
the evaluation runs in the scope of the handler, where the state setters and
the socket `ws` are visible. -/
inductive ScopeCall where
  | setError (value : Option String)
  | setConnectionStatus (value : String)
  | setCurrentFrame (value : Option String)
  | send (data : String)
  | close
  deriving DecidableEq, Repr

/-- A message event, through what evaluating its text `event.data` in the scope
of the handler does: the calls the text makes, in order, and what the
evaluation ends with.  The text of a JSON value makes no call. -/
structure MessageEvent where
  calls : List ScopeCall
  frameData : FrameData
  deriving DecidableEq, Repr

/-- One call made by the text of a message: the socket and the state after it,
or the message of the error it throws. -/
def runCall (call : ScopeCall) (ws : WebSocket) (s : CameraViewState) :
    Except String (WebSocket × CameraViewState) :=
  match call with
  | .setError value => .ok (ws, { s with error := value })
  | .setConnectionStatus value => .ok (ws, { s with connectionStatus := value })
  | .setCurrentFrame value => .ok (ws, { s with currentFrame := value })
  | .send data =>
    match ws.send data with
    | .ok ws' => .ok (ws', { s with wsConnection := some ws' })
    | .error message => .error message
  | .close => .ok (ws.close, { s with wsConnection := some ws.close })

/-- The calls made by the text of a message, in order, until one throws: the
socket and the state after them, and whether one threw. -/
def runCalls (calls : List ScopeCall) (ws : WebSocket) (s : CameraViewState) :
    WebSocket × CameraViewState × Bool :=
  match calls with
  | [] => (ws, s, false)
  | call :: rest =>
    match runCall call ws s with
    | .ok (ws', s') => runCalls rest ws' s'
    | .error _ => (ws, s, true)

/-- The handler `ws.onmessage` from the point where the text of the message has
been evaluated, applied to what the evaluation gave; the calls the text itself
makes while it is evaluated are in `onmessageEvent`. -/
def onmessage (ws : WebSocket) (frameData : FrameData) (s : CameraViewState) : CameraViewState :=
  match frameData with
  | .threw _ => s
  | .falsy => s
  | .value error image i =>
    if truthyStr error then
      { s with error := error, connectionStatus := "error" }
    else if truthyStr image || truthyStr i then
      let imageData := if truthyStr i then i.getD "" else image.getD ""
      let s1 := { s with currentFrame := some ("data:image/jpeg;base64," ++ imageData),
                         frameCount := s.frameCount + 1 }
      match ws.send "ready" with
      | .ok ws' => { s1 with wsConnection := some ws' }
      | .error _ => s1
    else s

/-- The handler `ws.onmessage` on a message event: the evaluation of the text with
the calls it makes, then, unless one of them threw (the `catch` only logs), the
rest of the handler on what the evaluation gave. -/
def onmessageEvent (ws : WebSocket) (event : MessageEvent) (s : CameraViewState) :
    CameraViewState :=
  match runCalls event.calls ws s with
  | (_, s', true) => s'
  | (ws', s', false) => onmessage ws' event.frameData s'

/-- The handler `ws.onerror`. -/
def onerror (s : CameraViewState) : CameraViewState :=
  { s with connectionStatus := "error", error := some "Error de conexión WebSocket" }

/-- The handler `ws.onclose`. -/
def onclose (s : CameraViewState) : CameraViewState :=
  { s with connectionStatus := "desconectado" }

/-- The handler `handleReconnect` of the button. -/
def handleReconnect (s : CameraViewState) : CameraViewState :=
  match s.wsConnection with
  | some wsConnection =>
    { s with wsConnection := some wsConnection.close, connectionStatus := "reconectando",
             error := none }
  | none => s

/-- A commit after a render: the effect has the dependency list `[camera]`, so
its cleanup and its body run again only when `camera` is not the one of the
previous render. -/
def commit (loc : Location) (previous camera : Option Camera) (s : CameraViewState) :
    CameraViewState :=
  if previous = camera then s else connectEffect loc camera (cleanupEffect s)

/-- Mounting a `CameraView`: the first run of the effect. -/
def mount (loc : Location) (camera : Option Camera) : CameraViewState :=
  connectEffect loc camera CameraViewState.initial

/-- The events the transport fires on the socket; `message` is a message whose
text makes no call when it is evaluated (the text of a JSON value), given by
what it evaluates to. -/
inductive TransportEvent where
  | opened
  | message (frameData : FrameData)
  | errored
  | closed
  deriving DecidableEq, Repr

/-- The platform firing an event on the component's socket: `open` fires once,
on a connecting socket, which becomes open; a message is delivered only to an
open socket; `close` fires once and leaves the socket closed. -/
def dispatch (e : TransportEvent) (s : CameraViewState) : CameraViewState :=
  match s.wsConnection with
  | none => s
  | some ws =>
    match e with
    | .opened =>
      if ws.readyState = .CONNECTING then
        onopen { ws with readyState := .OPEN }
          { s with wsConnection := some { ws with readyState := .OPEN } }
      else s
    | .message frameData => if ws.readyState = .OPEN then onmessage ws frameData s else s
    | .errored => onerror s
    | .closed =>
      if ws.readyState = .CLOSED then s
      else onclose { s with wsConnection := some { ws with readyState := .CLOSED } }

/-- The platform delivering a message event: only to an open socket. -/
def deliver (event : MessageEvent) (s : CameraViewState) : CameraViewState :=
  match s.wsConnection with
  | none => s
  | some ws => if ws.readyState = .OPEN then onmessageEvent ws event s else s

/-- A frame message as the protocol intends it: no error and an image payload
under `image` or `i`. -/
def wellFormedFrame : FrameData → Bool
  | .value error image i => !truthyStr error && (truthyStr image || truthyStr i)
  | _ => false

/-- The data the component has sent on its socket. -/
def sentMessages (s : CameraViewState) : List String :=
  match s.wsConnection with
  | some ws => ws.sent
  | none => []

/-- Whether the component's socket is still connecting. -/
def connecting (s : CameraViewState) : Bool :=
  match s.wsConnection with
  | some ws => decide (ws.readyState = .CONNECTING)
  | none => false

/-- Firing a list of transport events in order. -/
def dispatchAll (events : List TransportEvent) (s : CameraViewState) : CameraViewState :=
  events.foldl (fun st e => dispatch e st) s

/-- The events after the button `Reconectar` was pressed: the commit of the
render the handler caused, then transport events, each followed by a commit,
the `camera` property being the same throughout. -/
def afterReconnect (loc : Location) (camera : Option Camera) (events : List TransportEvent)
    (s : CameraViewState) : CameraViewState :=
  events.foldl (fun st e => commit loc camera camera (dispatch e st))
    (commit loc camera camera (handleReconnect s))

/-! ## The channel together with a server -/

/-- Modelled from the spec: the channel made of the client above and a server
that sends a message only by consuming one credit it was granted before.
`credits` counts the `ready` messages the client has sent and the server has not
consumed, `inFlight` holds the messages the server has sent and the client has
not handled yet. -/
structure ChannelSystem where
  client : CameraViewState
  credits : Nat
  inFlight : List MessageEvent
  deriving DecidableEq, Repr

/-- Modelled from the spec: what can happen in the composed system: the
transport opens, the server sends a message, the client receives the oldest
message in flight, the transport reports an error or closes, the user presses
`Reconectar`. -/
inductive SystemEvent where
  | opened
  | serverSend (message : MessageEvent)
  | clientReceive
  | errored
  | closed
  | reconnect
  deriving DecidableEq, Repr

/-- Modelled from the spec: the client moved to `next`; every `ready` it sent on
the way is one more credit for the server. -/
def clientMoved (next : CameraViewState) (sys : ChannelSystem) : ChannelSystem :=
  { client := next,
    credits := sys.credits + ((sentMessages next).length - (sentMessages sys.client).length),
    inFlight := sys.inFlight }

/-- Modelled from the spec: one step of the composed system (`none`: the event
cannot happen in that state).  The server may send only when it holds a credit,
and sending consumes it. -/
def systemStep (e : SystemEvent) (sys : ChannelSystem) : Option ChannelSystem :=
  match e with
  | .opened => some (clientMoved (dispatch .opened sys.client) sys)
  | .serverSend message =>
    if 0 < sys.credits then
      some { sys with credits := sys.credits - 1, inFlight := sys.inFlight ++ [message] }
    else none
  | .clientReceive =>
    match sys.inFlight with
    | [] => none
    | message :: rest =>
      some { clientMoved (deliver message sys.client) sys with inFlight := rest }
  | .errored => some (clientMoved (dispatch .errored sys.client) sys)
  | .closed => some (clientMoved (dispatch .closed sys.client) sys)
  | .reconnect => some (clientMoved (handleReconnect sys.client) sys)

/-- Modelled from the spec: a run of the composed system. -/
def systemRun (events : List SystemEvent) (sys : ChannelSystem) : Option ChannelSystem :=
  match events with
  | [] => some sys
  | e :: rest =>
    match systemStep e sys with
    | some next => systemRun rest next
    | none => none

/-- Modelled from the spec: the composed system when the component has just
been mounted for a camera. -/
def ChannelSystem.initial (loc : Location) (camera : Camera) : ChannelSystem :=
  { client := mount loc (some camera), credits := 0, inFlight := [] }

/-! ## Camera selection (`src/LiveView.js`) -/

/-- `handleAddCamera(cameraId)`: the selection after the handler; with four
cameras selected it shows an alert and returns. -/
def handleAddCamera (cameras selectedCameras : List Camera) (cameraId : Nat) : List Camera :=
  let cameraToAdd := cameras.find? (fun cam => cam.id = cameraId)
  if selectedCameras.length ≥ 4 then selectedCameras
  else
    match cameraToAdd with
    | some cam => selectedCameras ++ [cam]
    | none => selectedCameras

/-- `handleRemoveCamera(cameraId)`: the selection after the handler. -/
def handleRemoveCamera (selectedCameras : List Camera) (cameraId : Nat) : List Camera :=
  selectedCameras.filter (fun cam => cam.id ≠ cameraId)

/-- The two actions on the selection. -/
inductive SelectionAction where
  | add (cameraId : Nat)
  | remove (cameraId : Nat)
  deriving DecidableEq, Repr

/-- One action applied to the selection. -/
def applySelection (cameras : List Camera) (selectedCameras : List Camera)
    (a : SelectionAction) : List Camera :=
  match a with
  | .add cameraId => handleAddCamera cameras selectedCameras cameraId
  | .remove cameraId => handleRemoveCamera selectedCameras cameraId

/-! ## View shell (`src/App.js`) -/

/-- What `AppContent` shows below the bar. -/
inductive Content where
  | LoginForm
  | LiveView
  | RecordingsView
  | ClothingSearchView
  | DetectionConfigPanel
  | UserManagementPanel
  | UnauthorizedPage
  | notAvailable
  deriving DecidableEq, Repr

/-- `renderContent()` for the tab index `activeTab`. -/
def renderContent (w : AuthWorld) (activeTab : Nat) : Content :=
  match activeTab with
  | 0 => .LiveView
  | 1 => if hasRole w ROLE_OPERATOR then .RecordingsView else .UnauthorizedPage
  | 2 => if hasRole w ROLE_OPERATOR then .ClothingSearchView else .UnauthorizedPage
  | 3 => if hasRole w ROLE_ADMIN then .DetectionConfigPanel else .UnauthorizedPage
  | 4 => if hasRole w ROLE_ADMIN then .UserManagementPanel else .UnauthorizedPage
  | _ => .notAvailable

/-- The content of `AppContent`: the login form without a user, else
`renderContent()`. -/
def AppContent (w : AuthWorld) (activeTab : Nat) : Content :=
  if w.user.isNone then .LoginForm else renderContent w activeTab

/-- The labels of the children of `Tabs`, in order; the position of a child is
the value the tab selects. -/
def tabLabels (w : AuthWorld) : List String :=
  ["En vivo"]
    ++ (if hasRole w ROLE_OPERATOR then ["Grabaciones", "Buscar vestimenta"] else [])
    ++ (if hasRole w ROLE_ADMIN then ["Configuración", "Usuarios"] else [])

/-- The feature view a tab label announces. -/
def featureOfLabel (label : String) : Content :=
  if label = "En vivo" then .LiveView
  else if label = "Grabaciones" then .RecordingsView
  else if label = "Buscar vestimenta" then .ClothingSearchView
  else if label = "Configuración" then .DetectionConfigPanel
  else if label = "Usuarios" then .UserManagementPanel
  else .notAvailable

/-! ## Pagination and recordings (`src/RecordingsView.js`, `src/ClothingSearchView.js`) -/

/-- The method `slice(start, end)` of an array: a negative index counts from the
end, and both indices are clamped to the array. -/
def jsSlice {α : Type} (l : List α) (start stop : Int) : List α :=
  let len : Int := l.length
  let k : Int := if start < 0 then max (len + start) 0 else min start len
  let final : Int := if stop < 0 then max (len + stop) 0 else min stop len
  (l.drop k.toNat).take (final - k).toNat

namespace RecordingsView

/-- The state variable `itemsPerPage`: initialised to 12, its setter is never
called. -/
def itemsPerPage : Nat := 12

/-- The constant `startIndex` of a render. -/
def startIndex (page : Nat) : Int := ((page : Int) - 1) * (itemsPerPage : Int)

/-- The constant `endIndex` of a render. -/
def endIndex (page : Nat) : Int := startIndex page + (itemsPerPage : Int)

/-- The constant `paginatedRecordings` of a render. -/
def paginatedRecordings {α : Type} (recordings : List α) (page : Nat) : List α :=
  jsSlice recordings (startIndex page) (endIndex page)

/-- The constant `pageCount` of a render, `Math.ceil(recordings.length / itemsPerPage)`:
the quotient rounded up. -/
def pageCount {α : Type} (recordings : List α) : Nat :=
  (recordings.length + itemsPerPage - 1) / itemsPerPage

/-- A recording as the backend sends it (`none`: the property is absent). -/
structure RawRecording where
  camera_id : Option String
  filename : Option String
  path : Option String
  date : Option String
  hour : Option String
  time : Option String
  size_bytes : Option Nat
  size_mb : Option ℚ
  deriving DecidableEq, Repr

/-- A recording after the view has filled in the missing properties. -/
structure Recording where
  camera_id : String
  filename : String
  path : String
  date : String
  hour : String
  time : String
  size_bytes : Nat
  size_mb : ℚ
  deriving DecidableEq, Repr

/-- The value of `x || fallback` for a string property. -/
def orElse (x : Option String) (fallback : String) : String :=
  if truthyStr x then x.getD "" else fallback

/-- The callback that validates and normalises one recording. -/
def validate (recording : RawRecording) : Recording :=
  { camera_id := orElse recording.camera_id "unknown",
    filename := orElse recording.filename "Sin nombre",
    path := orElse recording.path "",
    date := orElse recording.date "Sin fecha",
    hour := orElse recording.hour "00",
    time := orElse recording.time "00-00-00",
    size_bytes := recording.size_bytes.getD 0,
    size_mb := recording.size_mb.getD 0 }

/-- The body of the answer of `GET /recordings`: its property `recordings`. -/
structure RecordingsBody where
  recordings : Option (List RawRecording)
  deriving DecidableEq, Repr

/-- The state variables of the view that loading and paging touch. -/
structure State where
  recordings : List Recording
  page : Nat
  loading : Bool
  error : Option String
  deriving DecidableEq, Repr

/-- The `try` block shared by both loaders up to `validatedRecordings`: the
list, or the message of the error thrown.  `answer` is what awaiting
`authFetch(url)` gave. -/
def validatedRecordings (answer : FetchOutcome RecordingsBody) : Except String (List Recording) :=
  match answer with
  | .rejected message => .error message
  | .resolved response =>
    if !response.ok then .error ("Error: " ++ toString response.status)
    else
      match response.json with
      | .error message => .error message
      | .ok data => .ok ((data.recordings.getD []).map validate)

/-- The function `fetchRecordings` of the effect that runs when a filter changes. -/
def fetchRecordings (answer : FetchOutcome RecordingsBody) (st : State) : State :=
  let st1 := { st with loading := true, error := none }
  let st2 : State :=
    match validatedRecordings answer with
    | .ok validated => { st1 with recordings := validated, page := 1 }
    | .error _ =>
      { st1 with
        error := some "Error al cargar la lista de grabaciones. Por favor, intente nuevamente.",
        recordings := [] }
  { st2 with loading := false }

/-- The handler `handleRefresh` of the refresh button. -/
def handleRefresh (answer : FetchOutcome RecordingsBody) (st : State) : State :=
  let st1 := { st with loading := true, error := none }
  let st2 : State :=
    match validatedRecordings answer with
    | .ok validated => { st1 with recordings := validated }
    | .error _ =>
      { st1 with
        error := some "Error al cargar la lista de grabaciones. Por favor, intente nuevamente.",
        recordings := [] }
  { st2 with loading := false }

/-- The handler `handlePageChange` of the pagination control. -/
def handlePageChange (value : Nat) (st : State) : State :=
  { st with page := value }

/-- An example recording as the backend sends it. -/
def exampleRaw : RawRecording :=
  { camera_id := some "cam1", filename := some "Entrada_2023-12-10_14-30-00.mp4",
    path := some "cam1/2023-12-10/14/Entrada_2023-12-10_14-30-00.mp4",
    date := some "2023-12-10", hour := some "14", time := some "14-30-00",
    size_bytes := some 1048576, size_mb := some 1 }

/-- An example state: thirteen recordings loaded, the second page shown. -/
def examplePageTwo : State :=
  { recordings := List.replicate 13 (validate exampleRaw), page := 2, loading := false,
    error := none }

/-- An example answer of the backend: success, with a single recording. -/
def exampleAnswer : FetchOutcome RecordingsBody :=
  .resolved { status := 200, json := .ok { recordings := some [exampleRaw] } }

end RecordingsView

namespace ClothingSearchView

/-- The state variable `itemsPerPage`: initialised to 12, its setter is never
called. -/
def itemsPerPage : Nat := 12

/-- The constant `startIndex` of a render. -/
def startIndex (page : Nat) : Int := ((page : Int) - 1) * (itemsPerPage : Int)

/-- The constant `endIndex` of a render. -/
def endIndex (page : Nat) : Int := startIndex page + (itemsPerPage : Int)

/-- The constant `paginatedResults` of a render. -/
def paginatedResults {α : Type} (searchResults : List α) (page : Nat) : List α :=
  jsSlice searchResults (startIndex page) (endIndex page)

/-- The constant `pageCount` of a render, `Math.ceil(searchResults.length / itemsPerPage)`:
the quotient rounded up. -/
def pageCount {α : Type} (searchResults : List α) : Nat :=
  (searchResults.length + itemsPerPage - 1) / itemsPerPage

/-- A detection of the search answer, as far as grouping reads it. -/
structure Detection where
  video_path : String
  confidence : ℚ
  deriving DecidableEq, Repr

/-- One entry of the grouped results (`none`: the path has no such part). -/
structure VideoGroup where
  camera_id : Option String
  path : String
  date : Option String
  hour : Option String
  filename : Option String
  detections_count : Nat
  detections : List Detection
  confidence : ℚ
  deriving DecidableEq, Repr

/-- The names of the properties that the object literal `groupedByVideo`
inherits from `Object.prototype`; reading one of them gives a truthy value
that has no property `detections`. -/
def objectPrototypeKeys : List String :=
  ["constructor", "__defineGetter__", "__defineSetter__", "hasOwnProperty",
   "__lookupGetter__", "__lookupSetter__", "isPrototypeOf", "propertyIsEnumerable",
   "toString", "valueOf", "__proto__", "toLocaleString"]

/-- The own property of `groupedByVideo` under a key, if there is one. -/
def ownProperty (groupedByVideo : List (String × VideoGroup)) (key : String) :
    Option VideoGroup :=
  (groupedByVideo.find? (fun kv => kv.1 = key)).map (fun kv => kv.2)

/-- The entry created for the first detection of a video: the parts of its
path, no detections yet. -/
def newGroup (detection : Detection) : VideoGroup :=
  let pathParts := detection.video_path.splitOn "/"
  { camera_id := pathParts[0]?, path := detection.video_path, date := pathParts[1]?,
    hour := pathParts[2]?, filename := pathParts[3]?, detections_count := 0,
    detections := [], confidence := 0 }

/-- The three updates of the loop body on the entry of the detection's video:
push the detection, count it, keep the highest confidence. -/
def addToGroup (group : VideoGroup) (detection : Detection) : VideoGroup :=
  { group with
    detections := group.detections ++ [detection],
    detections_count := group.detections_count + 1,
    confidence := if detection.confidence > group.confidence then detection.confidence
                  else group.confidence }

/-- One turn of the loop of `groupResultsByVideo`: the object after it, or the
message of the error thrown when the key is an inherited property. -/
def loopBody (groupedByVideo : List (String × VideoGroup)) (detection : Detection) :
    Except String (List (String × VideoGroup)) :=
  match ownProperty groupedByVideo detection.video_path with
  | some _ =>
    .ok (groupedByVideo.map (fun kv =>
      if kv.1 = detection.video_path then (kv.1, addToGroup kv.2 detection) else kv))
  | none =>
    if detection.video_path ∈ objectPrototypeKeys then
      .error "Cannot read properties of undefined (reading 'push')"
    else
      .ok (groupedByVideo ++ [(detection.video_path, addToGroup (newGroup detection) detection)])

/-- The loop of `groupResultsByVideo` over the detections. -/
def groupLoop (results : List Detection) (groupedByVideo : List (String × VideoGroup)) :
    Except String (List (String × VideoGroup)) :=
  match results with
  | [] => .ok groupedByVideo
  | detection :: rest =>
    match loopBody groupedByVideo detection with
    | .ok next => groupLoop rest next
    | .error message => .error message

/-- The number a key stands for when it is an array index. -/
def arrayIndex (key : String) : Option Nat :=
  match key.toNat? with
  | some n => if toString n = key ∧ n < 4294967295 then some n else none
  | none => none

/-- `Object.values(o)`: the values under the keys that are array indices, in
ascending order of the index, then the other values in the order their keys
were created. -/
def objectValues (o : List (String × VideoGroup)) : List VideoGroup :=
  (((o.filter (fun kv => (arrayIndex kv.1).isSome)).mergeSort
      (fun a b => decide ((arrayIndex a.1).getD 0 ≤ (arrayIndex b.1).getD 0)))
    ++ o.filter (fun kv => !(arrayIndex kv.1).isSome)).map (fun kv => kv.2)

/-- `groupResultsByVideo(results)`: the entries sorted, with a stable sort, by
the comparison `b.detections_count - a.detections_count`; or the message of the
error thrown. -/
def groupResultsByVideo (results : List Detection) : Except String (List VideoGroup) :=
  match groupLoop results [] with
  | .ok groupedByVideo =>
    .ok ((objectValues groupedByVideo).mergeSort
      (fun a b => decide (b.detections_count ≤ a.detections_count)))
  | .error message => .error message

end ClothingSearchView

/-! ## User administration (`src/UserManagementPanel.js`) -/

/-- Whether `trim()` removes the character: the white space and line terminator
code points of the language. -/
def isJsWhiteSpace (c : Char) : Bool :=
  decide (c.toNat ∈ [9, 10, 11, 12, 13, 32, 160, 5760, 8232, 8233, 8239, 8287, 12288, 65279])
    || (decide (8192 ≤ c.toNat) && decide (c.toNat ≤ 8202))

/-- The method `trim()` of a string. -/
def jsTrim (s : String) : String :=
  String.mk (((s.toList.dropWhile isJsWhiteSpace).reverse.dropWhile isJsWhiteSpace).reverse)

/-- A value that `JSON.stringify` meets in the user form. -/
inductive JsonValue where
  | str (s : String)
  | num (n : Nat)
  | null
  deriving DecidableEq, Repr

/-- The text `JSON.stringify` gives for such a value. -/
def JsonValue.stringify : JsonValue → String
  | .str s => jsonQuote s
  | .num n => toString n
  | .null => "null"

/-- The text `JSON.stringify` gives for an object with such values. -/
def JSON_stringifyValues (o : List (String × JsonValue)) : String :=
  "\x7b" ++ String.intercalate "," (o.map (fun kv => jsonQuote kv.1 ++ ":" ++ kv.2.stringify)) ++ "\x7d"

namespace UserManagementPanel

def baseApiUrl : String := "http://localhost:8000"

/-- The state variable `currentUser`: the user in the form (`id` is `null` for a
new user). -/
structure FormUser where
  id : Option Nat
  username : String
  password : String
  role : Nat
  deriving DecidableEq, Repr

/-- The state variables of the panel that saving and loading touch. -/
structure State where
  users : List User
  loading : Bool
  error : Option String
  openDialog : Bool
  isEditing : Bool
  currentUser : FormUser
  formError : String
  successMessage : String
  deriving DecidableEq, Repr

/-- The body of a non-success answer to saving, as far as it is read: `message`. -/
structure SaveBody where
  message : Option String
  deriving DecidableEq, Repr

/-- The text of `currentUser.id` inside a template literal. -/
def idText : Option Nat → String
  | some n => toString n
  | none => "null"

/-- `fetchUsers()`: the state once the request has settled, and the requests
issued. -/
def fetchUsers (fetchList : FetchCall → FetchOutcome (List User)) (w : AuthWorld) (st : State) :
    State × List FetchCall :=
  let st1 := { st with loading := true, error := none }
  let run := authFetch fetchList w (baseApiUrl ++ "/api/auth/users") FetchInit.empty
  let thrown : Except String (List User) :=
    match run.outcome with
    | .rejected message => .error message
    | .resolved response =>
      if !response.ok then .error "Error al obtener usuarios"
      else response.json
  let st2 : State :=
    match thrown with
    | .ok data => { st1 with users := data }
    | .error message =>
      { st1 with error := some ("No se pudieron cargar los usuarios: " ++ message) }
  ({ st2 with loading := false }, run.requests)

/-- The object `userData` that is sent: a copy of `currentUser` without `id` for
a new user and without `password` when editing with a blank password. -/
def userData (st : State) : List (String × JsonValue) :=
  (if st.isEditing then [("id", match st.currentUser.id with
                                | some n => JsonValue.num n
                                | none => JsonValue.null)] else [])
    ++ [("username", JsonValue.str st.currentUser.username)]
    ++ (if st.isEditing && jsTrim st.currentUser.password == "" then []
        else [("password", JsonValue.str st.currentUser.password)])
    ++ [("role", JsonValue.num st.currentUser.role)]

/-- The request that saves the user in the form. -/
def saveUrl (st : State) : String :=
  if st.isEditing then baseApiUrl ++ "/api/auth/users/" ++ idText st.currentUser.id
  else baseApiUrl ++ "/api/auth/users"

/-- The options of the request that saves the user in the form. -/
def saveOptions (st : State) : FetchInit :=
  { headers := some [("Content-Type", "application/json")],
    rest := [("method", if st.isEditing then "PUT" else "POST"),
             ("body", JSON_stringifyValues (userData st))] }

/-- `handleSaveUser()`: the state once its requests have settled (before the
timer that clears the success message fires), and the requests issued. -/
def handleSaveUser (fetchSave : FetchCall → FetchOutcome SaveBody)
    (fetchList : FetchCall → FetchOutcome (List User)) (w : AuthWorld) (st : State) :
    State × List FetchCall :=
  let st1 := { st with formError := "" }
  if jsTrim st.currentUser.username = "" then
    ({ st1 with formError := "El nombre de usuario es obligatorio" }, [])
  else if !st.isEditing && jsTrim st.currentUser.password == "" then
    ({ st1 with formError := "La contraseña es obligatoria para nuevos usuarios" }, [])
  else
    let run := authFetch fetchSave w (saveUrl st) (saveOptions st)
    let thrown : Option String :=
      match run.outcome with
      | .rejected message => some message
      | .resolved response =>
        if !response.ok then
          match response.json with
          | .error message => some message
          | .ok errorData =>
            some (if truthyStr errorData.message then errorData.message.getD ""
                  else "Error al guardar usuario")
        else none
    match thrown with
    | some message => ({ st1 with formError := "Error: " ++ message }, run.requests)
    | none =>
      let reload := fetchUsers fetchList w st1
      ({ reload.1 with
          openDialog := false,
          successMessage := if st.isEditing then "Usuario actualizado correctamente"
                            else "Usuario creado correctamente" },
       run.requests ++ reload.2)

/-- The property `disabled` of the delete button in the row of `user`. -/
def deleteDisabled (currentLoggedUser : Option User) (user : User) : Bool :=
  match currentLoggedUser with
  | some current => decide (user.id = current.id)
  | none => false

/-- An example form: creating a user whose name is only blanks. -/
def exampleBlankName : State :=
  { users := [], loading := false, error := none, openDialog := true, isEditing := false,
    currentUser := { id := none, username := "  ", password := "secret", role := 1 },
    formError := "", successMessage := "" }

/-- Whether `user` is the last remaining administrator of the list: an
administrator, and no user with another id is one. -/
def isLastAdmin (users : List User) (user : User) : Bool :=
  decide (user.role ≥ ROLE_ADMIN) &&
    users.all (fun other => decide (other.id = user.id) || !decide (other.role ≥ ROLE_ADMIN))

end UserManagementPanel

end Frontend

/-! ## Properties of the role predicate and the route guard -/

namespace Frontend

theorem JsRecord.get_set_same (o : JsRecord) (k v : String) :
    JsRecord.get (JsRecord.set o k v) k = some v := by
  induction o with
  | nil => simp [JsRecord.set, JsRecord.get]
  | cons kv rest ih =>
    obtain ⟨k', v'⟩ := kv
    by_cases h : k' = k
    · simp [JsRecord.set, JsRecord.get, h]
    · simp [JsRecord.set, JsRecord.get, h, ih]

/-- C1: `hasRole(b)` is true exactly when a user exists and its role is at least
`b`; in particular a session with role `a` gives `decide (a ≥ b)`, and without a
session the answer is false for every `b`. -/
theorem hasRole_iff (w : AuthWorld) (b : Nat) :
    (hasRole w b = true ↔ ∃ u, w.user = some u ∧ u.role ≥ b) ∧
    (∀ u : User, hasRole { w with user := some u } b = decide (u.role ≥ b)) ∧
    hasRole { w with user := none } b = false := by
  refine ⟨?_, fun u => rfl, rfl⟩
  unfold hasRole
  cases h : w.user with
  | none => simp
  | some u => simp

/-- C4: while `loading` is true the guard renders the pending element, whatever
the user, the stored token and the required role. -/
theorem ProtectedRoute_loading (user : Option User) (token : Option String)
    (requiredRole : Option Nat) :
    ProtectedRoute { user := user, loading := true, token := token } requiredRole
      = Rendered.loadingDiv := by
  simp [ProtectedRoute]

/-- C5: with `loading` false and no user the guard redirects to `/login`,
whatever the required role. -/
theorem ProtectedRoute_no_user (token : Option String) (requiredRole : Option Nat) :
    ProtectedRoute { user := none, loading := false, token := token } requiredRole
      = Rendered.navigate "/login" := by
  simp [ProtectedRoute]

/-- C6: with `loading` false, a user present and a required role `R` above the
user's role, the guard redirects to `/unauthorized`. -/
theorem ProtectedRoute_insufficient_role (u : User) (token : Option String) (R : Nat)
    (h : u.role < R) :
    ProtectedRoute { user := some u, loading := false, token := token } (some R)
      = Rendered.navigate "/unauthorized" := by
  have hR : R ≠ 0 := by omega
  have hlt : ¬ R ≤ u.role := by omega
  simp [ProtectedRoute, truthyNum, hasRole, hR, hlt]

theorem ProtectedRoute_insufficient_role_witness :
    (1 : Nat) < 2 ∧
    ProtectedRoute
        { user := some { id := 7, username := "v", role := 1 }, loading := false, token := some "T" }
        (some 2) = Rendered.navigate "/unauthorized" :=
  ⟨by decide,
   ProtectedRoute_insufficient_role { id := 7, username := "v", role := 1 } (some "T") 2
     (by decide)⟩

/-- C7: with `loading` false and a user present, the guard renders the children
when no role is required or the user's role is at least the required one; every
input gives one of the four results, and each of the four results is reached. -/
theorem ProtectedRoute_allow_total :
    (∀ (u : User) (token : Option String),
        ProtectedRoute { user := some u, loading := false, token := token } none
          = Rendered.children) ∧
    (∀ (u : User) (token : Option String) (R : Nat), u.role ≥ R →
        ProtectedRoute { user := some u, loading := false, token := token } (some R)
          = Rendered.children) ∧
    (∀ (w : AuthWorld) (requiredRole : Option Nat),
        ProtectedRoute w requiredRole = Rendered.loadingDiv ∨
        ProtectedRoute w requiredRole = Rendered.navigate "/login" ∨
        ProtectedRoute w requiredRole = Rendered.navigate "/unauthorized" ∨
        ProtectedRoute w requiredRole = Rendered.children) ∧
    (∀ r : Rendered,
        r = Rendered.loadingDiv ∨ r = Rendered.navigate "/login" ∨
        r = Rendered.navigate "/unauthorized" ∨ r = Rendered.children →
        ∃ (w : AuthWorld) (requiredRole : Option Nat), ProtectedRoute w requiredRole = r) := by
  refine ⟨?_, ?_, ?_, ?_⟩
  · intro u token
    simp [ProtectedRoute, truthyNum]
  · intro u token R h
    simp [ProtectedRoute, truthyNum, hasRole, h]
  · intro w requiredRole
    unfold ProtectedRoute
    split
    · exact Or.inl rfl
    · split
      · exact Or.inr (Or.inl rfl)
      · split
        · exact Or.inr (Or.inr (Or.inl rfl))
        · exact Or.inr (Or.inr (Or.inr rfl))
  · intro r hr
    rcases hr with h | h | h | h
    · exact ⟨{ user := none, loading := true, token := none }, none, by rw [h]; rfl⟩
    · exact ⟨{ user := none, loading := false, token := none }, none, by rw [h]; rfl⟩
    · exact ⟨{ user := some ⟨1, "v", 1⟩, loading := false, token := none }, some 2,
        by rw [h]; decide⟩
    · exact ⟨{ user := some ⟨1, "v", 1⟩, loading := false, token := none }, none,
        by rw [h]; rfl⟩

theorem ProtectedRoute_allow_total_witness :
    (3 : Nat) ≥ 2 ∧
    ProtectedRoute
        { user := some { id := 1, username := "a", role := 3 }, loading := false, token := some "T" }
        (some 2) = Rendered.children :=
  ⟨by decide,
   ProtectedRoute_allow_total.2.1 { id := 1, username := "a", role := 3 } (some "T") 2
     (by decide)⟩

/-! ## Properties of `authFetch`, `login` and `logout` -/

/-- C2: with no token stored `authFetch` is rejected with an error and issues no
request, for every url, every options value and every network. -/
theorem authFetch_no_token {β : Type} (fetch : FetchCall → FetchOutcome β) (user : Option User)
    (loading : Bool) (url : String) (options : FetchInit) :
    (authFetch fetch { user := user, loading := loading, token := none } url options).requests = [] ∧
    (authFetch fetch { user := user, loading := loading, token := none } url options).outcome
      = FetchOutcome.rejected "No hay token de autenticación disponible" := by
  exact ⟨rfl, rfl⟩

theorem JsRecord.mem_set (o : JsRecord) (k v : String) :
    ∀ kv ∈ JsRecord.set o k v, kv ∈ o ∨ kv = (k, v) := by
  induction o with
  | nil =>
    intro kv h
    simp only [JsRecord.set, List.mem_singleton] at h
    exact Or.inr h
  | cons head rest ih =>
    obtain ⟨k', v'⟩ := head
    intro kv h
    by_cases hk : k' = k
    · simp only [JsRecord.set, hk, if_true, List.mem_cons] at h
      rcases h with h | h
      · exact Or.inr h
      · exact Or.inl (List.mem_cons_of_mem _ h)
    · simp only [JsRecord.set, hk, if_false, List.mem_cons] at h
      rcases h with h | h
      · exact Or.inl (h ▸ List.mem_cons_self _ _)
      · rcases ih kv h with h' | h'
        · exact Or.inl (List.mem_cons_of_mem _ h')
        · exact Or.inr h'

theorem JsRecord.nodup_set (o : JsRecord) (k v : String) (h : (o.map Prod.fst).Nodup) :
    ((JsRecord.set o k v).map Prod.fst).Nodup := by
  induction o with
  | nil => simp [JsRecord.set]
  | cons head rest ih =>
    obtain ⟨k', v'⟩ := head
    simp only [List.map_cons, List.nodup_cons] at h
    by_cases hk : k' = k
    · simp only [JsRecord.set, hk, if_true, List.map_cons, List.nodup_cons]
      exact ⟨hk ▸ h.1, h.2⟩
    · simp only [JsRecord.set, hk, if_false, List.map_cons, List.nodup_cons]
      refine ⟨?_, ih h.2⟩
      intro hmem
      obtain ⟨kv, hkv, hfst⟩ := List.mem_map.mp hmem
      rcases JsRecord.mem_set rest k v kv hkv with h' | h'
      · exact h.1 (hfst ▸ List.mem_map_of_mem _ h')
      · rw [h'] at hfst
        exact hk hfst.symm

theorem JsRecord.filter_set (o : JsRecord) (k v : String) (h : (o.map Prod.fst).Nodup) :
    (JsRecord.set o k v).filter (fun kv => decide (kv.1 = k)) = [(k, v)] := by
  induction o with
  | nil => simp [JsRecord.set]
  | cons head rest ih =>
    obtain ⟨k', v'⟩ := head
    simp only [List.map_cons, List.nodup_cons] at h
    by_cases hk : k' = k
    · have hrest : rest.filter (fun kv => decide (kv.1 = k)) = [] := by
        rw [List.filter_eq_nil_iff]
        intro kv hkv hdec
        simp only [decide_eq_true_eq] at hdec
        exact h.1 (hk ▸ hdec ▸ List.mem_map_of_mem _ hkv)
      simp [JsRecord.set, hk, hrest]
    · simp [JsRecord.set, hk, ih h.2]

theorem JsRecord.spread_keys (b : JsRecord) :
    ∀ a : JsRecord, (a.map Prod.fst).Nodup →
      ((JsRecord.spread a b).map Prod.fst).Nodup ∧
      ∀ kv ∈ JsRecord.spread a b, kv ∈ a ∨ kv ∈ b := by
  induction b with
  | nil =>
    intro a h
    exact ⟨h, fun kv hkv => Or.inl hkv⟩
  | cons head rest ih =>
    intro a h
    obtain ⟨hnd, hmem⟩ := ih (JsRecord.set a head.1 head.2) (JsRecord.nodup_set a _ _ h)
    refine ⟨hnd, ?_⟩
    intro kv hkv
    rcases hmem kv hkv with h' | h'
    · rcases JsRecord.mem_set a head.1 head.2 kv h' with h'' | h''
      · exact Or.inl h''
      · exact Or.inr (h'' ▸ List.mem_cons_self _ _)
    · exact Or.inr (List.mem_cons_of_mem _ h')

/-- C3 as stated fails: with the options header `authorization` (lower case)
holding `Bearer old`, both properties reach the request, whose `Authorization`
header is `Bearer old, Bearer T` and not `Bearer T`. -/
theorem authFetch_lowercase_authorization :
    (authFetch (emptyBodyBackend 200)
        { user := none, loading := false, token := some "T" } "/cameras"
        { headers := some [("authorization", "Bearer old")], rest := [] }).requests.map
      (fun call => requestHeader (call.init.headers.getD []) "Authorization")
      = [some "Bearer old, Bearer T"] ∧
    ¬ ∀ call ∈ (authFetch (emptyBodyBackend 200)
          { user := none, loading := false, token := some "T" } "/cameras"
          { headers := some [("authorization", "Bearer old")], rest := [] }).requests,
        requestHeader (call.init.headers.getD []) "Authorization" = some ("Bearer " ++ "T") := by
  refine ⟨by decide, ?_⟩
  intro h
  have hcall := h
    { url := "/cameras",
      init := { headers := some [("authorization", "Bearer old"), ("Authorization", "Bearer T")],
                rest := [] } }
    (by simp [authFetch, JsRecord.spread, JsRecord.set])
  revert hcall
  decide

/-- C3 amended: every request `authFetch` issues goes to the given url, and in
the headers object handed to `fetch` the property `Authorization` is `Bearer `
followed by the stored token, also when the options already hold a property
spelled `Authorization` (the stored token wins); when the options hold no
property spelled otherwise whose name is `authorization` up to letter case, the
request's `Authorization` header is that value, normalised; and with a
non-empty token stored exactly one request is issued. -/
theorem authFetch_bearer {β : Type} (fetch : FetchCall → FetchOutcome β) (w : AuthWorld)
    (url : String) (options : FetchInit) :
    (∀ call ∈ (authFetch fetch w url options).requests,
      ∃ token, w.token = some token ∧ call.url = url ∧ call.init.rest = options.rest ∧
        call.init.headers.bind (fun h => JsRecord.get h "Authorization")
          = some ("Bearer " ++ token) ∧
        ((∀ kv ∈ options.headers.getD [],
            asciiLower kv.1 = asciiLower "Authorization" → kv.1 = "Authorization") →
          requestHeader (call.init.headers.getD []) "Authorization"
            = some (httpTrim ("Bearer " ++ token)))) ∧
    (∀ token, w.token = some token → token ≠ "" →
      ((authFetch fetch w url options).requests).length = 1) := by
  constructor
  · intro call hcall
    unfold authFetch at hcall
    cases htok : w.token with
    | none => simp [htok] at hcall
    | some token =>
      by_cases hempty : token = ""
      · simp [htok, hempty] at hcall
      · simp only [htok, hempty, if_false, List.mem_singleton] at hcall
        subst hcall
        refine ⟨token, rfl, rfl, rfl, by simp [JsRecord.get_set_same], ?_⟩
        intro hno
        obtain ⟨hnd, hmem⟩ := JsRecord.spread_keys (options.headers.getD []) [] (by simp)
        have hfilter : (JsRecord.set (JsRecord.spread [] (options.headers.getD []))
            "Authorization" ("Bearer " ++ token)).filter
              (fun kv => decide (asciiLower kv.1 = asciiLower "Authorization"))
            = [("Authorization", "Bearer " ++ token)] := by
          rw [← JsRecord.filter_set _ "Authorization" ("Bearer " ++ token) hnd]
          apply List.filter_congr
          intro kv hkv
          rcases JsRecord.mem_set _ _ _ kv hkv with h' | h'
          · rcases hmem kv h' with h'' | h''
            · simp at h''
            · by_cases hk : kv.1 = "Authorization"
              · simp [hk]
              · have hl : ¬ asciiLower kv.1 = asciiLower "Authorization" :=
                  fun e => hk (hno kv h'' e)
                simp [hk, hl]
          · simp [h']
        simp only [Option.getD_some, requestHeader, hfilter, List.map_cons, List.map_nil]
        rfl
  · intro token htok hne
    simp [authFetch, htok, hne]

theorem authFetch_bearer_witness :
    requestHeader [("Accept", "application/json"), ("Authorization", "Bearer T")]
        "Authorization" = some (httpTrim ("Bearer " ++ "T")) := by
  obtain ⟨token, htoken, -, -, -, hheader⟩ :=
    (authFetch_bearer (emptyBodyBackend 200)
      { user := none, loading := false, token := some "T" } "/cameras"
      { headers := some [("Accept", "application/json"), ("Authorization", "Bearer old")],
        rest := [("method", "GET")] }).1
    { url := "/cameras",
      init := { headers := some [("Accept", "application/json"), ("Authorization", "Bearer T")],
                rest := [("method", "GET")] } }
    (by simp [authFetch, JsRecord.spread, JsRecord.set])
  cases htoken
  exact hheader (by decide)

/-- C8: when the credential exchange is answered with a success status and a body
holding `access_token` `T` and `user` `U`, `login` returns a success result, the
stored token is `T` and the user is `U`. -/
theorem login_success (fetch : FetchCall → FetchOutcome LoginBody) (w : AuthWorld)
    (username password : String) (status : Nat) (body : LoginBody) (T : String) (U : User)
    (hfetch : fetch (loginCall username password)
      = FetchOutcome.resolved { status := status, json := Except.ok body })
    (hok : 200 ≤ status ∧ status ≤ 299)
    (hT : body.access_token = some T) (hU : body.user = some U) :
    login fetch w username password
      = ({ user := some U, loading := w.loading, token := some T },
         { success := true, message := none }) := by
  cases body with
  | null => simp [LoginBody.access_token] at hT
  | object detail access_token user =>
    simp only [LoginBody.access_token, LoginBody.user] at hT hU
    simp [login, loginTry, hfetch, Response.ok, hok.1, hok.2, hT, hU]

theorem login_success_witness :
    login stubBackend (AuthWorld.initial none) "op1" "correct"
      = ({ user := some { id := 2, username := "op1", role := 2 }, loading := true,
           token := some "T" },
         { success := true, message := none }) :=
  login_success stubBackend (AuthWorld.initial none) "op1" "correct" 200
    (LoginBody.object none (some "T") (some { id := 2, username := "op1", role := 2 }))
    "T" { id := 2, username := "op1", role := 2 }
    (if_pos rfl) (by decide) rfl rfl

/-- C9 as stated fails: no reading of the result of `login` tells invalid
credentials from a server error, because a 401 answer and a 500 answer with the
same body give the same result. -/
theorem login_reason_not_distinguished :
    ¬ ∃ reasonOf : LoginResult → FailureReason,
      ∀ (fetch : FetchCall → FetchOutcome LoginBody) (w : AuthWorld) (username password : String)
        (reason : FailureReason),
        specFailureReason (fetch (loginCall username password)) = some reason →
        reasonOf (login fetch w username password).2 = reason := by
  rintro ⟨reasonOf, h⟩
  have h401 := h (emptyBodyBackend 401) (AuthWorld.initial none) "op1" "wrong"
    FailureReason.invalidCredentials rfl
  have h500 := h (emptyBodyBackend 500) (AuthWorld.initial none) "op1" "wrong"
    FailureReason.networkOrServer rfl
  have hsame : (login (emptyBodyBackend 401) (AuthWorld.initial none) "op1" "wrong").2
      = (login (emptyBodyBackend 500) (AuthWorld.initial none) "op1" "wrong").2 := rfl
  rw [hsame, h500] at h401
  exact absurd h401 (by decide)

/-- C9 amended: when the credential exchange is rejected or answered with a
non-success status, `login` returns (it does not throw) the failure result with
`success` false and a message, and leaves the stored token and the user as they
were.  The message is that of the error thrown inside `login`: the rejection's
message; else the decoding error's message; else, for a body that is `null`, the
message of the `TypeError` raised by reading `detail`; else `Error de
autenticación` when `detail` is absent or falsy; else the text `detail` converts
to (a non-empty string gives itself), or the message of the error this
conversion throws. -/
theorem login_failure (fetch : FetchCall → FetchOutcome LoginBody) (w : AuthWorld)
    (username password : String)
    (hfail : (∃ message, fetch (loginCall username password) = FetchOutcome.rejected message) ∨
      (∃ response, fetch (loginCall username password) = FetchOutcome.resolved response ∧
        response.ok = false)) :
    login fetch w username password
      = (w, { success := false,
              message := some (match fetch (loginCall username password) with
                | FetchOutcome.rejected message => message
                | FetchOutcome.resolved response =>
                  match response.json with
                  | Except.error message => message
                  | Except.ok LoginBody.null => nullReadMessage "detail"
                  | Except.ok (LoginBody.object none _ _) => "Error de autenticación"
                  | Except.ok (LoginBody.object (some JsObserved.falsy) _ _) =>
                    "Error de autenticación"
                  | Except.ok (LoginBody.object (some (JsObserved.truthy text)) _ _) => text
                  | Except.ok (LoginBody.object (some (JsObserved.unprintable message)) _ _) =>
                    message) }) := by
  rcases hfail with ⟨message, hrej⟩ | ⟨response, hres, hnot⟩
  · simp [login, loginTry, hrej]
  · cases hjson : response.json with
    | error message => simp [login, loginTry, hres, hnot, hjson]
    | ok errorData =>
      cases errorData with
      | null => simp [login, loginTry, hres, hnot, hjson]
      | object detail access_token user =>
        cases detail with
        | none => simp [login, loginTry, hres, hnot, hjson]
        | some observed =>
          cases observed <;> simp [login, loginTry, hres, hnot, hjson]

theorem login_failure_witness :
    login stubBackend (AuthWorld.initial none) "op1" "wrong"
      = (AuthWorld.initial none,
         { success := false, message := some "Incorrect username or password" }) :=
  login_failure stubBackend (AuthWorld.initial none) "op1" "wrong"
    (Or.inr ⟨{ status := 401,
               json := Except.ok (LoginBody.object
                 (some (JsObserved.ofString "Incorrect username or password")) none none) },
      if_neg (by decide), rfl⟩)

/-- C10: after `logout`, from every state, no token is stored and the user is
empty, and a second `logout` changes nothing more. -/
theorem logout_clears_idempotent (w : AuthWorld) :
    (logout w).token = none ∧ (logout w).user = none ∧ logout (logout w) = logout w := by
  exact ⟨rfl, rfl, rfl⟩

/-! ## Properties of `checkAuth` and of login followed by logout -/

/-- C11: after a successful login followed by `logout`, no token is stored, the
user is empty, and the route guard with `loading` false redirects to `/login`
for every required role. -/
theorem login_logout_guard (fetch : FetchCall → FetchOutcome LoginBody) (w : AuthWorld)
    (username password : String) (status : Nat) (body : LoginBody) (T : String) (U : User)
    (hfetch : fetch (loginCall username password)
      = FetchOutcome.resolved { status := status, json := Except.ok body })
    (hok : 200 ≤ status ∧ status ≤ 299)
    (hT : body.access_token = some T) (hU : body.user = some U) :
    (login fetch w username password).2.success = true ∧
    (login fetch w username password).1.token = some T ∧
    (login fetch w username password).1.user = some U ∧
    (logout (login fetch w username password).1).token = none ∧
    (logout (login fetch w username password).1).user = none ∧
    ∀ requiredRole : Option Nat,
      ProtectedRoute { logout (login fetch w username password).1 with loading := false }
        requiredRole = Rendered.navigate "/login" := by
  cases body with
  | null => simp [LoginBody.access_token] at hT
  | object detail access_token user =>
    simp only [LoginBody.access_token, LoginBody.user] at hT hU
    refine ⟨?_, ?_, ?_, rfl, rfl, ?_⟩
    · simp [login, loginTry, hfetch, Response.ok, hok.1, hok.2]
    · simp [login, loginTry, hfetch, Response.ok, hok.1, hok.2, hT]
    · simp [login, loginTry, hfetch, Response.ok, hok.1, hok.2, hU]
    · intro requiredRole
      simp [ProtectedRoute, logout]

theorem login_logout_guard_witness :
    (login stubBackend (AuthWorld.initial none) "op1" "correct").2.success = true ∧
    (login stubBackend (AuthWorld.initial none) "op1" "correct").1.token = some "T" ∧
    (login stubBackend (AuthWorld.initial none) "op1" "correct").1.user
      = some { id := 2, username := "op1", role := 2 } ∧
    (logout (login stubBackend (AuthWorld.initial none) "op1" "correct").1).token = none ∧
    (logout (login stubBackend (AuthWorld.initial none) "op1" "correct").1).user = none ∧
    ∀ requiredRole : Option Nat,
      ProtectedRoute
        { logout (login stubBackend (AuthWorld.initial none) "op1" "correct").1 with
          loading := false }
        requiredRole = Rendered.navigate "/login" :=
  login_logout_guard stubBackend (AuthWorld.initial none) "op1" "correct" 200
    (LoginBody.object none (some "T") (some { id := 2, username := "op1", role := 2 }))
    "T" { id := 2, username := "op1", role := 2 }
    (if_pos rfl) (by decide) rfl rfl

/-- C12: `checkAuth` on a freshly mounted provider with a stored token, when
the identity endpoint answers with a non-success status: afterwards no token is
stored, the user is empty and `loading` is false. -/
theorem checkAuth_non_success (fetch : FetchCall → FetchOutcome (Option User)) (token : String)
    (response : Response (Option User)) (htoken : token ≠ "")
    (hfetch : fetch (meCall token) = FetchOutcome.resolved response)
    (hnot : response.ok = false) :
    checkAuth fetch (AuthWorld.initial (some token))
      = { user := none, loading := false, token := none } := by
  simp [checkAuth, checkAuthCaught, checkAuthTry, AuthWorld.initial, truthyStr, htoken, hfetch,
    hnot]

theorem checkAuth_non_success_witness :
    checkAuth (fun _ => FetchOutcome.resolved { status := 401, json := Except.ok none })
        (AuthWorld.initial (some "T"))
      = { user := none, loading := false, token := none } :=
  checkAuth_non_success (fun _ => FetchOutcome.resolved { status := 401, json := Except.ok none })
    "T" { status := 401, json := Except.ok none } (by decide) rfl rfl

/-- C13 as stated fails: when the identity request is rejected, the stored token
is still there after `checkAuth`. -/
theorem checkAuth_network_failure_keeps_token :
    ¬ ((checkAuth (fun _ => FetchOutcome.rejected "Failed to fetch")
          (AuthWorld.initial (some "T"))).token = none ∧
       (checkAuth (fun _ => FetchOutcome.rejected "Failed to fetch")
          (AuthWorld.initial (some "T"))).user = none) := by
  intro h
  exact absurd h.1 (by decide)

/-- C13 amended: `checkAuth` on a freshly mounted provider with a stored token,
when the identity request is rejected: afterwards the user is empty, `loading` is
false and the stored token is the one that was there before. -/
theorem checkAuth_network_failure (fetch : FetchCall → FetchOutcome (Option User))
    (token message : String)
    (hfetch : fetch (meCall token) = FetchOutcome.rejected message) :
    checkAuth fetch (AuthWorld.initial (some token))
      = { user := none, loading := false, token := some token } := by
  by_cases htoken : token = ""
  · simp [checkAuth, checkAuthCaught, checkAuthTry, AuthWorld.initial, truthyStr, htoken]
  · simp [checkAuth, checkAuthCaught, checkAuthTry, AuthWorld.initial, truthyStr, htoken, hfetch]

theorem checkAuth_network_failure_witness :
    checkAuth (fun _ => FetchOutcome.rejected "Failed to fetch") (AuthWorld.initial (some "T"))
      = { user := none, loading := false, token := some "T" } :=
  checkAuth_network_failure (fun _ => FetchOutcome.rejected "Failed to fetch") "T"
    "Failed to fetch" rfl

/-- C14: `loading` is true in the initial state and stays true until the
`finally` block of `checkAuth`, after which it is false whatever the stored token
and the answer of the identity endpoint; when the endpoint answers a stored token
with a success status and a decodable body, the user is that body. -/
theorem checkAuth_loading (fetch : FetchCall → FetchOutcome (Option User)) :
    (∀ stored : Option String, (AuthWorld.initial stored).loading = true) ∧
    (∀ stored : Option String,
      (checkAuthCaught fetch (AuthWorld.initial stored)).loading = true) ∧
    (∀ w : AuthWorld, (checkAuth fetch w).loading = false) ∧
    (∀ (token : String) (response : Response (Option User)) (userData : Option User),
      token ≠ "" → fetch (meCall token) = FetchOutcome.resolved response →
      response.ok = true → response.json = Except.ok userData →
      checkAuth fetch (AuthWorld.initial (some token))
        = { user := userData, loading := false, token := some token }) := by
  refine ⟨fun _ => rfl, ?_, fun _ => rfl, ?_⟩
  · intro stored
    unfold checkAuthCaught checkAuthTry
    split
    · rename_i w' hw
      split at hw
      · split at hw
        · cases hw
        · split at hw
          · split at hw
            · cases hw
            · cases hw
              rfl
          · cases hw
            rfl
      · cases hw
        rfl
    · rfl
  · intro token response userData htoken hfetch hok hjson
    simp [checkAuth, checkAuthCaught, checkAuthTry, AuthWorld.initial, truthyStr, htoken, hfetch,
      hok, hjson]

theorem checkAuth_loading_witness :
    checkAuth
        (fun _ => FetchOutcome.resolved
          { status := 200, json := Except.ok (some { id := 2, username := "op1", role := 2 }) })
        (AuthWorld.initial (some "T"))
      = { user := some { id := 2, username := "op1", role := 2 }, loading := false,
          token := some "T" } :=
  (checkAuth_loading
      (fun _ => FetchOutcome.resolved
        { status := 200, json := Except.ok (some { id := 2, username := "op1", role := 2 }) })).2.2.2
    "T" { status := 200, json := Except.ok (some { id := 2, username := "op1", role := 2 }) }
    (some { id := 2, username := "op1", role := 2 }) (by decide) rfl rfl rfl

/-! ## Properties of the live frame channel -/

theorem dispatch_message_wellFormed (s : CameraViewState) (ws : WebSocket) (f : FrameData)
    (hws : s.wsConnection = some ws) (hopen : ws.readyState = ReadyState.OPEN)
    (hwf : wellFormedFrame f = true) :
    ∃ ws', (dispatch (TransportEvent.message f) s).wsConnection = some ws' ∧
      ws'.readyState = ReadyState.OPEN ∧ ws'.sent = ws.sent ++ ["ready"] := by
  cases f with
  | threw m => simp [wellFormedFrame] at hwf
  | falsy => simp [wellFormedFrame] at hwf
  | value error image i =>
    simp only [wellFormedFrame, Bool.and_eq_true, Bool.not_eq_true', Bool.or_eq_true] at hwf
    obtain ⟨herr, himg⟩ := hwf
    have himg' : (truthyStr image || truthyStr i) = true := by simpa using himg
    refine ⟨{ ws with sent := ws.sent ++ ["ready"] }, ?_, hopen, rfl⟩
    simp [dispatch, hws, hopen, onmessage, herr, himg', WebSocket.send]

theorem dispatchAll_messages_wellFormed (frames : List FrameData) :
    ∀ (s : CameraViewState) (ws : WebSocket), s.wsConnection = some ws →
      ws.readyState = ReadyState.OPEN → (∀ f ∈ frames, wellFormedFrame f = true) →
      sentMessages (dispatchAll (frames.map TransportEvent.message) s)
        = ws.sent ++ List.replicate frames.length "ready" := by
  induction frames with
  | nil =>
    intro s ws hws _ _
    simp [dispatchAll, sentMessages, hws]
  | cons f rest ih =>
    intro s ws hws hopen hwf
    obtain ⟨ws', hws', hopen', hsent'⟩ :=
      dispatch_message_wellFormed s ws f hws hopen (hwf f (List.mem_cons_self _ _))
    have hrest := ih (dispatch (TransportEvent.message f) s) ws' hws' hopen'
      (fun g hg => hwf g (List.mem_cons_of_mem _ hg))
    simp only [dispatchAll, List.map_cons, List.foldl_cons] at hrest ⊢
    rw [hrest, hsent', List.length_cons, List.replicate_succ, List.append_assoc]
    rfl

/-- C15: after the component is mounted nothing has been sent; when the
transport opens and then well-formed frames arrive, after the first `k` of them
the client has sent exactly `k + 1` messages, all `ready`: one on open, before
any frame, and one more after each frame. -/
theorem ready_credit_count (loc : Location) (camera : Camera) (frames : List FrameData)
    (hwf : ∀ f ∈ frames, wellFormedFrame f = true) :
    sentMessages (mount loc (some camera)) = [] ∧
    ∀ k, k ≤ frames.length →
      sentMessages (dispatchAll ((frames.take k).map TransportEvent.message)
          (dispatch TransportEvent.opened (mount loc (some camera))))
        = List.replicate (k + 1) "ready" := by
  refine ⟨rfl, ?_⟩
  intro k hk
  have hmount : ∃ ws, (dispatch TransportEvent.opened (mount loc (some camera))).wsConnection
      = some ws ∧ ws.readyState = ReadyState.OPEN ∧ ws.sent = ["ready"] := by
    exact ⟨{ url := wsUrl loc camera, readyState := ReadyState.OPEN, sent := ["ready"] },
      rfl, rfl, rfl⟩
  obtain ⟨ws, hws, hopen, hsent⟩ := hmount
  have h := dispatchAll_messages_wellFormed (frames.take k) _ ws hws hopen
    (fun f hf => hwf f (List.mem_of_mem_take hf))
  rw [h, hsent, List.length_take, Nat.min_eq_left hk, List.replicate_succ]
  rfl

theorem ready_credit_count_witness :
    sentMessages (dispatchAll
        (([FrameData.value none (some "AAAA") none, FrameData.value none none (some "BBBB"),
            FrameData.value none (some "CCCC") none].take 3).map TransportEvent.message)
        (dispatch TransportEvent.opened
          (mount { protocol := "http:", hostname := "localhost", host := "localhost:3000" }
            (some { id := 1, name := "Entrada" }))))
      = List.replicate (3 + 1) "ready" ∧
    sentMessages (dispatchAll
        [TransportEvent.opened,
          TransportEvent.message (FrameData.value none (some "AAAA") none),
          TransportEvent.message (FrameData.value none none (some "BBBB")),
          TransportEvent.message (FrameData.value none (some "CCCC") none),
          TransportEvent.closed]
        (mount { protocol := "http:", hostname := "localhost", host := "localhost:3000" }
          (some { id := 1, name := "Entrada" })))
      = ["ready", "ready", "ready", "ready"] :=
  ⟨(ready_credit_count { protocol := "http:", hostname := "localhost", host := "localhost:3000" }
      { id := 1, name := "Entrada" }
      [FrameData.value none (some "AAAA") none, FrameData.value none none (some "BBBB"),
        FrameData.value none (some "CCCC") none]
      (by decide)).2 3 (by decide),
   by decide⟩

/-- C17: a message whose `error` field is truthy sets the status to `error` and
the error indicator to that field, and leaves the displayed frame, the socket and
everything else as they were, for every prior state; so does its delivery to an
open socket. -/
theorem onmessage_error_frame (ws : WebSocket) (s : CameraViewState)
    (error image i : Option String) (herr : truthyStr error = true) :
    onmessage ws (FrameData.value error image i) s
      = { s with error := error, connectionStatus := "error" } ∧
    (onmessage ws (FrameData.value error image i) s).currentFrame = s.currentFrame ∧
    (s.wsConnection = some ws → ws.readyState = ReadyState.OPEN →
      dispatch (TransportEvent.message (FrameData.value error image i)) s
        = { s with error := error, connectionStatus := "error" }) := by
  refine ⟨?_, ?_, ?_⟩
  · simp [onmessage, herr]
  · simp [onmessage, herr]
  · intro hws hopen
    simp [dispatch, hws, hopen, onmessage, herr]

theorem onmessage_error_frame_witness :
    onmessage { url := "ws://localhost:8000/ws/stream/1", readyState := ReadyState.OPEN,
                sent := ["ready"] }
        (FrameData.value (some "camera offline") (some "AAAA") none)
        { connectionStatus := "conectado", currentFrame := some "data:image/jpeg;base64,ZZZZ",
          wsConnection := some { url := "ws://localhost:8000/ws/stream/1",
                                 readyState := ReadyState.OPEN, sent := ["ready"] },
          error := none, frameCount := 1, created := ["ws://localhost:8000/ws/stream/1"] }
      = { connectionStatus := "error", currentFrame := some "data:image/jpeg;base64,ZZZZ",
          wsConnection := some { url := "ws://localhost:8000/ws/stream/1",
                                 readyState := ReadyState.OPEN, sent := ["ready"] },
          error := some "camera offline", frameCount := 1,
          created := ["ws://localhost:8000/ws/stream/1"] } :=
  (onmessage_error_frame
    { url := "ws://localhost:8000/ws/stream/1", readyState := ReadyState.OPEN, sent := ["ready"] }
    { connectionStatus := "conectado", currentFrame := some "data:image/jpeg;base64,ZZZZ",
      wsConnection := some { url := "ws://localhost:8000/ws/stream/1",
                             readyState := ReadyState.OPEN, sent := ["ready"] },
      error := none, frameCount := 1, created := ["ws://localhost:8000/ws/stream/1"] }
    (some "camera offline") (some "AAAA") none (by decide)).1

/-- A message whose text makes no call and whose evaluation throws, or gives a
falsy value, is dropped: the handler returns the state it was given, and so
does the delivery of such a message in every state. -/
theorem onmessage_malformed_dropped (ws : WebSocket) (s : CameraViewState) (message : String) :
    onmessage ws (FrameData.threw message) s = s ∧
    onmessage ws FrameData.falsy s = s ∧
    dispatch (TransportEvent.message (FrameData.threw message)) s = s := by
  refine ⟨rfl, rfl, ?_⟩
  unfold dispatch
  cases s.wsConnection with
  | none => rfl
  | some ws' =>
    by_cases h : ws'.readyState = ReadyState.OPEN
    · simp [h, onmessage]
    · simp [h]

/-- C18, what the code does: the text of a message is evaluated in the scope of
the handler, so a text that is no message object can still act: on an open
socket showing a frame, the message `setError('boom')` (a call of the setter in
scope, whose value is falsy) sets the error indicator to `boom`, where it was
empty before, while status, frame and socket stay as they were. -/
theorem onmessage_runs_payload :
    (dispatchAll
        [TransportEvent.opened, TransportEvent.message (FrameData.value none (some "ZZZZ") none)]
        (mount { protocol := "http:", hostname := "localhost", host := "localhost:3000" }
          (some { id := 1, name := "Entrada" }))).error = none ∧
    deliver { calls := [ScopeCall.setError (some "boom")], frameData := FrameData.falsy }
        (dispatchAll
          [TransportEvent.opened,
            TransportEvent.message (FrameData.value none (some "ZZZZ") none)]
          (mount { protocol := "http:", hostname := "localhost", host := "localhost:3000" }
            (some { id := 1, name := "Entrada" })))
      = { connectionStatus := "conectado",
          currentFrame := some "data:image/jpeg;base64,ZZZZ",
          wsConnection := some { url := "ws://localhost:8000/ws/stream/1",
                                 readyState := ReadyState.OPEN, sent := ["ready", "ready"] },
          error := some "boom", frameCount := 1,
          created := ["ws://localhost:8000/ws/stream/1"] } := by
  exact ⟨by decide, by decide⟩

/-! ## Properties of the channel together with a server -/

theorem deliver_no_calls (message : MessageEvent) (s : CameraViewState)
    (h : message.calls = []) :
    deliver message s = dispatch (TransportEvent.message message.frameData) s := by
  unfold deliver dispatch
  cases s.wsConnection with
  | none => rfl
  | some ws =>
    by_cases hopen : ws.readyState = ReadyState.OPEN
    · simp [hopen, onmessageEvent, h, runCalls]
    · simp [hopen]

theorem sent_after_quiet_step (s : CameraViewState) :
    (sentMessages (dispatch TransportEvent.errored s) = sentMessages s ∧
      connecting (dispatch TransportEvent.errored s) = connecting s) ∧
    (sentMessages (dispatch TransportEvent.closed s) = sentMessages s ∧
      (connecting (dispatch TransportEvent.closed s) = true → connecting s = true)) ∧
    (sentMessages (handleReconnect s) = sentMessages s ∧
      connecting (handleReconnect s) = false) := by
  rcases s with ⟨status, frame, wsc, err, count, created⟩
  cases wsc with
  | none => simp [dispatch, handleReconnect, sentMessages, connecting]
  | some ws =>
    rcases ws with ⟨url, state, sent⟩
    cases state <;>
      simp [dispatch, handleReconnect, sentMessages, connecting, onerror, onclose,
        WebSocket.close]

theorem sent_after_message (s : CameraViewState) (f : FrameData) :
    (sentMessages (dispatch (TransportEvent.message f) s)).length
        ≤ (sentMessages s).length + 1 ∧
    connecting (dispatch (TransportEvent.message f) s) = connecting s := by
  rcases s with ⟨status, frame, wsc, err, count, created⟩
  cases wsc with
  | none => simp [dispatch, sentMessages, connecting]
  | some ws =>
    rcases ws with ⟨url, state, sent⟩
    cases state <;> simp [dispatch, sentMessages, connecting]
    cases f with
    | threw m => simp [onmessage]
    | falsy => simp [onmessage]
    | value error image i =>
      by_cases herr : truthyStr error = true
      · simp [onmessage, herr]
      · by_cases himg : (truthyStr image || truthyStr i) = true
        · simp [onmessage, herr, himg, WebSocket.send]
        · simp [onmessage, herr, himg]

theorem sent_after_opened (s : CameraViewState) :
    (connecting s = true →
      connecting (dispatch TransportEvent.opened s) = false ∧
      (sentMessages (dispatch TransportEvent.opened s)).length ≤ (sentMessages s).length + 1) ∧
    (connecting s = false → dispatch TransportEvent.opened s = s) := by
  rcases s with ⟨status, frame, wsc, err, count, created⟩
  cases wsc with
  | none => simp [dispatch, sentMessages, connecting]
  | some ws =>
    rcases ws with ⟨url, state, sent⟩
    cases state <;> simp [dispatch, sentMessages, connecting, onopen, WebSocket.send]

theorem systemStep_invariant (e : SystemEvent) (sys next : ChannelSystem)
    (hstep : systemStep e sys = some next)
    (hsent : ∀ message, e = SystemEvent.serverSend message → message.calls = [])
    (hquiet : ∀ message ∈ sys.inFlight, message.calls = [])
    (hsum : sys.credits + sys.inFlight.length ≤ 1)
    (hconn : connecting sys.client = true → sys.credits = 0 ∧ sys.inFlight = []) :
    next.credits + next.inFlight.length ≤ 1 ∧
    (connecting next.client = true → next.credits = 0 ∧ next.inFlight = []) ∧
    (∀ message ∈ next.inFlight, message.calls = []) := by
  obtain ⟨hquietE, hquietC, hquietR⟩ := sent_after_quiet_step sys.client
  cases e with
  | opened =>
    simp only [systemStep, Option.some.injEq] at hstep
    subst hstep
    obtain ⟨hyes, hno⟩ := sent_after_opened sys.client
    cases hc : connecting sys.client with
    | true =>
      obtain ⟨hafter, hlen⟩ := hyes hc
      obtain ⟨hcred, hfl⟩ := hconn hc
      refine ⟨?_, ?_, hquiet⟩
      · simp only [clientMoved, hcred, hfl, List.length_nil]
        omega
      · intro h
        simp [clientMoved, hafter] at h
    | false =>
      have hsame := hno hc
      refine ⟨?_, ?_, hquiet⟩
      · simp only [clientMoved, hsame]
        omega
      · intro h
        simp [clientMoved, hsame, hc] at h
  | serverSend message =>
    by_cases hpos : 0 < sys.credits
    · simp only [systemStep, hpos, if_true, Option.some.injEq] at hstep
      subst hstep
      refine ⟨?_, ?_, ?_⟩
      · simp only [List.length_append, List.length_singleton]
        omega
      · intro h
        have := (hconn h).1
        omega
      · intro m hm
        rcases List.mem_append.mp hm with hm | hm
        · exact hquiet m hm
        · simp only [List.mem_singleton] at hm
          exact hm ▸ hsent message rfl
    · simp [systemStep, hpos] at hstep
  | clientReceive =>
    cases hfl : sys.inFlight with
    | nil => simp [systemStep, hfl] at hstep
    | cons message rest =>
      simp only [systemStep, hfl, Option.some.injEq] at hstep
      subst hstep
      have hcalls : message.calls = [] := hquiet message (hfl ▸ List.mem_cons_self _ _)
      obtain ⟨hlen, hsame⟩ := sent_after_message sys.client message.frameData
      rw [hfl] at hsum
      refine ⟨?_, ?_, ?_⟩
      · simp only [clientMoved, deliver_no_calls message sys.client hcalls,
          List.length_cons] at hsum ⊢
        omega
      · intro h
        simp only [clientMoved, deliver_no_calls message sys.client hcalls] at h
        rw [hsame] at h
        have := (hconn h).2
        simp [hfl] at this
      · intro m hm
        exact hquiet m (hfl ▸ List.mem_cons_of_mem _ hm)
  | errored =>
    simp only [systemStep, Option.some.injEq] at hstep
    subst hstep
    refine ⟨?_, ?_, hquiet⟩
    · simp only [clientMoved, hquietE.1]
      omega
    · intro h
      simp only [clientMoved] at h ⊢
      rw [hquietE.2] at h
      simpa [hquietE.1] using hconn h
  | closed =>
    simp only [systemStep, Option.some.injEq] at hstep
    subst hstep
    refine ⟨?_, ?_, hquiet⟩
    · simp only [clientMoved, hquietC.1]
      omega
    · intro h
      simp only [clientMoved] at h ⊢
      simpa [hquietC.1] using hconn (hquietC.2 h)
  | reconnect =>
    simp only [systemStep, Option.some.injEq] at hstep
    subst hstep
    refine ⟨?_, ?_, hquiet⟩
    · simp only [clientMoved, hquietR.1]
      omega
    · intro h
      simp [clientMoved, hquietR.2] at h

theorem systemRun_invariant (events : List SystemEvent) :
    ∀ sys final : ChannelSystem, systemRun events sys = some final →
      (∀ message, SystemEvent.serverSend message ∈ events → message.calls = []) →
      (∀ message ∈ sys.inFlight, message.calls = []) →
      sys.credits + sys.inFlight.length ≤ 1 →
      (connecting sys.client = true → sys.credits = 0 ∧ sys.inFlight = []) →
      final.credits + final.inFlight.length ≤ 1 := by
  induction events with
  | nil =>
    intro sys final hrun _ _ hsum _
    simp only [systemRun, Option.some.injEq] at hrun
    subst hrun
    exact hsum
  | cons e rest ih =>
    intro sys final hrun hsent hquiet hsum hconn
    simp only [systemRun] at hrun
    cases hstep : systemStep e sys with
    | none => simp [hstep] at hrun
    | some next =>
      simp only [hstep] at hrun
      obtain ⟨hsum', hconn', hquiet'⟩ := systemStep_invariant e sys next hstep
        (fun m hm => hsent m (hm ▸ List.mem_cons_self _ _)) hquiet hsum hconn
      exact ih next final hrun (fun m hm => hsent m (List.mem_cons_of_mem _ hm))
        hquiet' hsum' hconn'

/-- With a server whose messages are texts of JSON values, whose evaluation makes
no call: in every state the composed system reaches from a freshly mounted
component, the unconsumed credits and the messages in flight together number at
most one. -/
theorem one_credit_with_json_messages (loc : Location) (camera : Camera)
    (events : List SystemEvent) (sys : ChannelSystem)
    (hsent : ∀ message, SystemEvent.serverSend message ∈ events → message.calls = [])
    (hrun : systemRun events (ChannelSystem.initial loc camera) = some sys) :
    sys.credits + sys.inFlight.length ≤ 1 ∧ sys.credits ≤ 1 ∧ sys.inFlight.length ≤ 1 := by
  have h := systemRun_invariant events (ChannelSystem.initial loc camera) sys hrun hsent
    (by simp [ChannelSystem.initial]) (by simp [ChannelSystem.initial])
    (by intro _; exact ⟨rfl, rfl⟩)
  omega

/-- C16, what the code does: the text of a message is evaluated in the scope of
the handler, where `ws` is visible.  The server consumes the one credit granted
on open and sends one message, whose text calls `ws.send('ready')` and gives a
frame with the payload `AAAA` under `i`; after the client has handled it, two
credits are unconsumed. -/
theorem two_credits_after_one_message :
    systemRun
        [SystemEvent.opened,
          SystemEvent.serverSend
            { calls := [ScopeCall.send "ready"],
              frameData := FrameData.value none none (some "AAAA") },
          SystemEvent.clientReceive]
        (ChannelSystem.initial
          { protocol := "http:", hostname := "localhost", host := "localhost:3000" }
          { id := 1, name := "Entrada" })
      = some
        { client :=
            { connectionStatus := "conectado",
              currentFrame := some "data:image/jpeg;base64,AAAA",
              wsConnection := some { url := "ws://localhost:8000/ws/stream/1",
                                     readyState := ReadyState.OPEN,
                                     sent := ["ready", "ready", "ready"] },
              error := none, frameCount := 1, created := ["ws://localhost:8000/ws/stream/1"] },
          credits := 2,
          inFlight := [] } := by
  decide

/-! ## Manual reconnect -/

theorem dispatch_keeps_created (e : TransportEvent) (s : CameraViewState) :
    (dispatch e s).created = s.created ∧
    (s.connectionStatus ≠ "conectando" → (dispatch e s).connectionStatus ≠ "conectando") := by
  rcases s with ⟨status, frame, wsc, err, count, created⟩
  cases wsc with
  | none => simp [dispatch]
  | some ws =>
    rcases ws with ⟨url, state, sent⟩
    cases e with
    | opened => cases state <;> simp [dispatch, onopen, WebSocket.send]
    | message f =>
      cases state <;> simp [dispatch]
      cases f with
      | threw m => simp [onmessage]
      | falsy => simp [onmessage]
      | value error image i =>
        by_cases herr : truthyStr error = true
        · simp [onmessage, herr]
        · by_cases himg : (truthyStr image || truthyStr i) = true
          · simp [onmessage, herr, himg, WebSocket.send]
          · simp [onmessage, herr, himg]
    | errored => simp [dispatch, onerror]
    | closed => cases state <;> simp [dispatch, onclose]

/-- C19, what the code does: after `handleReconnect` on a component that has a
connection, with the `camera` property unchanged, whatever transport events
follow, no further socket is constructed and the status is never `conectando`;
right after the handler the socket is closing or closed and the status is
`reconectando`. -/
theorem handleReconnect_no_new_connection (loc : Location) (camera : Option Camera)
    (ws : WebSocket) (s : CameraViewState) (events : List TransportEvent) :
    (afterReconnect loc camera [] { s with wsConnection := some ws }).connectionStatus
      = "reconectando" ∧
    (afterReconnect loc camera [] { s with wsConnection := some ws }).wsConnection
      = some ws.close ∧
    (afterReconnect loc camera events { s with wsConnection := some ws }).created = s.created ∧
    (afterReconnect loc camera events { s with wsConnection := some ws }).connectionStatus
      ≠ "conectando" := by
  have hkey : ∀ (evs : List TransportEvent) (st : CameraViewState),
      st.connectionStatus ≠ "conectando" →
      (evs.foldl (fun st e => commit loc camera camera (dispatch e st)) st).created = st.created ∧
      (evs.foldl (fun st e => commit loc camera camera (dispatch e st)) st).connectionStatus
        ≠ "conectando" := by
    intro evs
    induction evs with
    | nil => intro st hst; exact ⟨rfl, hst⟩
    | cons e rest ih =>
      intro st hst
      obtain ⟨hc, hs⟩ := dispatch_keeps_created e st
      have hstep : commit loc camera camera (dispatch e st) = dispatch e st := by
        simp [commit]
      simp only [List.foldl_cons, hstep]
      obtain ⟨hc', hs'⟩ := ih (dispatch e st) (hs hst)
      exact ⟨hc'.trans hc, hs'⟩
  have hstart : commit loc camera camera (handleReconnect { s with wsConnection := some ws })
      = { s with wsConnection := some ws.close, connectionStatus := "reconectando",
                 error := none } := by
    simp [commit, handleReconnect]
  refine ⟨?_, ?_, ?_, ?_⟩
  · simp [afterReconnect, hstart]
  · simp [afterReconnect, hstart]
  · simp only [afterReconnect, hstart]
    exact (hkey events
      { s with wsConnection := some ws.close, connectionStatus := "reconectando", error := none }
      (by simp)).1
  · simp only [afterReconnect, hstart]
    exact (hkey events
      { s with wsConnection := some ws.close, connectionStatus := "reconectando", error := none }
      (by simp)).2

/-! ## Camera selection -/

/-- C20: with four cameras selected `handleAddCamera` returns the selection it
was given, for every camera id; and from a selection of at most four cameras
every sequence of `handleAddCamera` and `handleRemoveCamera` gives a selection of
at most four cameras. -/
theorem camera_cap (cameras : List Camera) :
    (∀ (selectedCameras : List Camera) (cameraId : Nat), selectedCameras.length = 4 →
      handleAddCamera cameras selectedCameras cameraId = selectedCameras) ∧
    (∀ (actions : List SelectionAction) (selectedCameras : List Camera),
      selectedCameras.length ≤ 4 →
      (actions.foldl (applySelection cameras) selectedCameras).length ≤ 4) := by
  constructor
  · intro selectedCameras cameraId h
    simp [handleAddCamera, h]
  · intro actions
    induction actions with
    | nil => intro selectedCameras h; simpa using h
    | cons a rest ih =>
      intro selectedCameras h
      simp only [List.foldl_cons]
      apply ih
      cases a with
      | add cameraId =>
        simp only [applySelection, handleAddCamera]
        split
        · exact h
        · split
          · simp only [List.length_append, List.length_singleton]
            omega
          · exact h
      | remove cameraId =>
        simp only [applySelection, handleRemoveCamera]
        exact le_trans (List.length_filter_le _ _) h

theorem camera_cap_witness :
    handleAddCamera
        [⟨1, "A"⟩, ⟨2, "B"⟩, ⟨3, "C"⟩, ⟨4, "D"⟩, ⟨5, "E"⟩]
        [⟨1, "A"⟩, ⟨2, "B"⟩, ⟨3, "C"⟩, ⟨4, "D"⟩] 5
      = [⟨1, "A"⟩, ⟨2, "B"⟩, ⟨3, "C"⟩, ⟨4, "D"⟩] :=
  (camera_cap [⟨1, "A"⟩, ⟨2, "B"⟩, ⟨3, "C"⟩, ⟨4, "D"⟩, ⟨5, "E"⟩]).1
    [⟨1, "A"⟩, ⟨2, "B"⟩, ⟨3, "C"⟩, ⟨4, "D"⟩] 5 rfl

/-! ## Properties of the frame fields -/

/-- C21: a message without error that carries a non-empty payload `p` under
`image`, or under `i`, sets the displayed frame to the data-URL prefix followed
by `p`; when both fields hold non-empty payloads the one under `i` is used. -/
theorem onmessage_image_fields (ws : WebSocket) (s : CameraViewState)
    (error : Option String) (p q : String)
    (herr : truthyStr error = false) (hp : p ≠ "") (hq : q ≠ "") :
    (onmessage ws (FrameData.value error (some p) none) s).currentFrame
      = some ("data:image/jpeg;base64," ++ p) ∧
    (onmessage ws (FrameData.value error none (some p)) s).currentFrame
      = some ("data:image/jpeg;base64," ++ p) ∧
    (onmessage ws (FrameData.value error (some p) (some q)) s).currentFrame
      = some ("data:image/jpeg;base64," ++ q) := by
  have key : ∀ (image i : Option String), (truthyStr image || truthyStr i) = true →
      (onmessage ws (FrameData.value error image i) s).currentFrame
        = some ("data:image/jpeg;base64," ++ if truthyStr i = true then i.getD "" else image.getD "") := by
    intro image i h
    simp only [onmessage, herr, h, if_true, Bool.false_eq_true, if_false]
    cases ws.send "ready" <;> rfl
  refine ⟨?_, ?_, ?_⟩
  · rw [key _ _ (by simp [truthyStr, hp])]
    simp [truthyStr]
  · rw [key _ _ (by simp [truthyStr, hp])]
    simp [truthyStr, hp]
  · rw [key _ _ (by simp [truthyStr, hp])]
    simp [truthyStr, hq]

theorem onmessage_image_fields_witness :
    (onmessage { url := "ws://h/ws/stream/1", readyState := ReadyState.OPEN, sent := [] }
        (FrameData.value none (some "AAAA") none) CameraViewState.initial).currentFrame
      = some ("data:image/jpeg;base64," ++ "AAAA") ∧
    (onmessage { url := "ws://h/ws/stream/1", readyState := ReadyState.OPEN, sent := [] }
        (FrameData.value none none (some "AAAA")) CameraViewState.initial).currentFrame
      = some ("data:image/jpeg;base64," ++ "AAAA") ∧
    (onmessage { url := "ws://h/ws/stream/1", readyState := ReadyState.OPEN, sent := [] }
        (FrameData.value none (some "AAAA") (some "BBBB")) CameraViewState.initial).currentFrame
      = some ("data:image/jpeg;base64," ++ "BBBB") :=
  onmessage_image_fields
    { url := "ws://h/ws/stream/1", readyState := ReadyState.OPEN, sent := [] }
    CameraViewState.initial none "AAAA" "BBBB" rfl (by decide) (by decide)

/-- C30: a message that evaluates to a value whose `error`, `image` and `i` are
all absent or empty changes nothing: the handler returns the state it was given
(status, displayed frame, error indicator, socket and what was sent on it), and
so does the delivery of such a message in every state. -/
theorem onmessage_no_payload (ws : WebSocket) (s : CameraViewState)
    (error image i : Option String)
    (herr : truthyStr error = false) (himage : truthyStr image = false)
    (hi : truthyStr i = false) :
    onmessage ws (FrameData.value error image i) s = s ∧
    dispatch (TransportEvent.message (FrameData.value error image i)) s = s ∧
    sentMessages (dispatch (TransportEvent.message (FrameData.value error image i)) s)
      = sentMessages s := by
  have h1 : onmessage ws (FrameData.value error image i) s = s := by
    simp [onmessage, herr, himage, hi]
  have h2 : dispatch (TransportEvent.message (FrameData.value error image i)) s = s := by
    unfold dispatch
    cases s.wsConnection with
    | none => rfl
    | some ws' =>
      by_cases h : ws'.readyState = ReadyState.OPEN
      · simp [h, onmessage, herr, himage, hi]
      · simp [h]
  exact ⟨h1, h2, by rw [h2]⟩

theorem onmessage_no_payload_witness :
    onmessage { url := "ws://h/ws/stream/1", readyState := ReadyState.OPEN, sent := ["ready"] }
        (FrameData.value none (some "") none) CameraViewState.initial
      = CameraViewState.initial :=
  (onmessage_no_payload
    { url := "ws://h/ws/stream/1", readyState := ReadyState.OPEN, sent := ["ready"] }
    CameraViewState.initial none (some "") none rfl rfl rfl).1

/-! ## Properties of the view shell -/

/-- C22: for a logged-in user, tab 0 shows the live view whatever the role; tabs
1 and 2 show recordings and clothing search exactly when the role is at least 2
and the unauthorized page otherwise; tabs 3 and 4 show configuration and user
management exactly when the role is at least 3 and the unauthorized page
otherwise. -/
theorem renderContent_gating (u : User) (loading : Bool) (token : Option String) :
    AppContent { user := some u, loading := loading, token := token } 0 = Content.LiveView ∧
    AppContent { user := some u, loading := loading, token := token } 1
      = (if u.role ≥ 2 then Content.RecordingsView else Content.UnauthorizedPage) ∧
    AppContent { user := some u, loading := loading, token := token } 2
      = (if u.role ≥ 2 then Content.ClothingSearchView else Content.UnauthorizedPage) ∧
    AppContent { user := some u, loading := loading, token := token } 3
      = (if u.role ≥ 3 then Content.DetectionConfigPanel else Content.UnauthorizedPage) ∧
    AppContent { user := some u, loading := loading, token := token } 4
      = (if u.role ≥ 3 then Content.UserManagementPanel else Content.UnauthorizedPage) := by
  simp [AppContent, renderContent, hasRole, ROLE_OPERATOR, ROLE_ADMIN]

/-- C28: the shell shows 1 tab for a viewer, 3 for an operator and 5 for an
admin; and for every role and every tab index below the number of tabs shown,
the content is the feature view that the tab at that position announces, which is
neither the unauthorized page nor the fallback. -/
theorem tabs_match_content (u : User) (loading : Bool) (token : Option String) :
    (u.role = 1 →
      (tabLabels { user := some u, loading := loading, token := token }).length = 1) ∧
    (u.role = 2 →
      (tabLabels { user := some u, loading := loading, token := token }).length = 3) ∧
    (u.role = 3 →
      (tabLabels { user := some u, loading := loading, token := token }).length = 5) ∧
    ∀ index, index < (tabLabels { user := some u, loading := loading, token := token }).length →
      AppContent { user := some u, loading := loading, token := token } index
        = featureOfLabel
            ((tabLabels { user := some u, loading := loading, token := token }).getD index "") ∧
      AppContent { user := some u, loading := loading, token := token } index
        ≠ Content.UnauthorizedPage ∧
      AppContent { user := some u, loading := loading, token := token } index
        ≠ Content.notAvailable := by
  refine ⟨?_, ?_, ?_, ?_⟩
  · intro h
    simp [tabLabels, hasRole, ROLE_OPERATOR, ROLE_ADMIN, h]
  · intro h
    simp [tabLabels, hasRole, ROLE_OPERATOR, ROLE_ADMIN, h]
  · intro h
    simp [tabLabels, hasRole, ROLE_OPERATOR, ROLE_ADMIN, h]
  · intro index hindex
    by_cases h3 : 3 ≤ u.role
    · have h2 : 2 ≤ u.role := by omega
      simp only [tabLabels, hasRole, ROLE_OPERATOR, ROLE_ADMIN, ge_iff_le, h2, h3, decide_True,
        if_true, List.length_append, List.length_cons, List.length_nil] at hindex ⊢
      have : index = 0 ∨ index = 1 ∨ index = 2 ∨ index = 3 ∨ index = 4 := by omega
      rcases this with h | h | h | h | h <;> subst h <;>
        simp [AppContent, renderContent, hasRole, ROLE_OPERATOR, ROLE_ADMIN, h2, h3,
          featureOfLabel]
    · by_cases h2 : 2 ≤ u.role
      · simp only [tabLabels, hasRole, ROLE_OPERATOR, ROLE_ADMIN, ge_iff_le, h2, h3,
          decide_True, decide_False, if_true, Bool.false_eq_true, if_false, List.length_append,
          List.length_cons, List.length_nil] at hindex ⊢
        have : index = 0 ∨ index = 1 ∨ index = 2 := by omega
        rcases this with h | h | h <;> subst h <;>
          simp [AppContent, renderContent, hasRole, ROLE_OPERATOR, ROLE_ADMIN, h2,
            featureOfLabel]
      · simp only [tabLabels, hasRole, ROLE_OPERATOR, ROLE_ADMIN, ge_iff_le, h2, h3,
          decide_False, Bool.false_eq_true, if_false, List.length_append,
          List.length_cons, List.length_nil] at hindex ⊢
        have : index = 0 := by omega
        subst this
        simp [AppContent, renderContent, featureOfLabel]

theorem tabs_match_content_witness :
    AppContent { user := some { id := 2, username := "op1", role := 2 }, loading := false,
                 token := some "T" } 2
      = featureOfLabel
          ((tabLabels { user := some { id := 2, username := "op1", role := 2 }, loading := false,
                        token := some "T" }).getD 2 "") ∧
    AppContent { user := some { id := 2, username := "op1", role := 2 }, loading := false,
                 token := some "T" } 2
      ≠ Content.UnauthorizedPage ∧
    AppContent { user := some { id := 2, username := "op1", role := 2 }, loading := false,
                 token := some "T" } 2
      ≠ Content.notAvailable :=
  (tabs_match_content { id := 2, username := "op1", role := 2 } false (some "T")).2.2.2 2
    (by decide)

/-! ## Properties of pagination -/

theorem jsSlice_page {α : Type} (l : List α) (k : Nat) :
    jsSlice l (RecordingsView.startIndex (k + 1)) (RecordingsView.endIndex (k + 1))
      = (l.drop (k * 12)).take 12 := by
  have hstart : RecordingsView.startIndex (k + 1) = ((k * 12 : Nat) : Int) := by
    simp [RecordingsView.startIndex, RecordingsView.itemsPerPage]
  have hend : RecordingsView.endIndex (k + 1) = ((k * 12 + 12 : Nat) : Int) := by
    simp [RecordingsView.endIndex, hstart, RecordingsView.itemsPerPage]
  rw [hstart, hend]
  unfold jsSlice
  have h1 : ¬ (((k * 12 : Nat) : Int) < 0) := by omega
  have h2 : ¬ (((k * 12 + 12 : Nat) : Int) < 0) := by omega
  simp only [h1, h2, if_false]
  by_cases hle : k * 12 ≤ l.length
  · have e1 : (min ((k * 12 : Nat) : Int) (l.length : Int)).toNat = k * 12 := by omega
    have e2 : (min ((k * 12 + 12 : Nat) : Int) (l.length : Int)
        - min ((k * 12 : Nat) : Int) (l.length : Int)).toNat = min 12 (l.length - k * 12) := by
      omega
    rw [e1, e2, List.take_eq_take, List.length_drop]
    omega
  · have e1 : (min ((k * 12 : Nat) : Int) (l.length : Int)).toNat = l.length := by omega
    rw [e1, List.drop_of_length_le (Nat.le_refl _), List.drop_of_length_le (by omega)]
    simp

theorem pages_flatten {α : Type} (n : Nat) :
    ∀ l : List α, l.length ≤ n * 12 →
      ((List.range n).map (fun k => (l.drop (k * 12)).take 12)).flatten = l := by
  induction n with
  | zero =>
    intro l h
    have : l = [] := List.length_eq_zero.mp (by omega)
    simp [this]
  | succ n ih =>
    intro l h
    have hrest := ih (l.drop 12) (by rw [List.length_drop]; omega)
    rw [List.range_succ_eq_map, List.map_cons, List.flatten_cons, List.map_map]
    have hfun : ((fun k => (l.drop (k * 12)).take 12) ∘ Nat.succ)
        = (fun k => ((l.drop 12).drop (k * 12)).take 12) := by
      funext k
      simp only [Function.comp, List.drop_drop]
      congr 2
      rw [Nat.succ_mul]
      omega
    rw [hfun, hrest]
    simp

/-- C29: with 12 items per page and `pageCount` the length divided by 12 rounded
up, the slices of pages 1 to `pageCount`, concatenated in order, are the whole
list; each of these pages is non-empty and holds at most 12 items; and the
computations of the recordings view and of the clothing search view agree. -/
theorem pagination_partitions {α : Type} (l : List α) :
    ((RecordingsView.pageCount l : Nat) : Int) = ⌈((l.length : ℚ) / 12)⌉ ∧
    ((List.range (RecordingsView.pageCount l)).map
        (fun k => RecordingsView.paginatedRecordings l (k + 1))).flatten = l ∧
    (∀ page, 1 ≤ page → page ≤ RecordingsView.pageCount l →
      RecordingsView.paginatedRecordings l page ≠ [] ∧
      (RecordingsView.paginatedRecordings l page).length ≤ 12) ∧
    (∀ page, ClothingSearchView.paginatedResults l page
      = RecordingsView.paginatedRecordings l page) ∧
    ClothingSearchView.pageCount l = RecordingsView.pageCount l := by
  have hcount : RecordingsView.pageCount l = (l.length + 11) / 12 := rfl
  refine ⟨?_, ?_, ?_, fun _ => rfl, rfl⟩
  · rw [hcount]
    have hlow : (l.length + 11) / 12 * 12 < l.length + 12 := by omega
    have hhigh : l.length ≤ (l.length + 11) / 12 * 12 := by omega
    generalize (l.length + 11) / 12 = m at hlow hhigh
    generalize l.length = n at hlow hhigh
    have hlowq : ((m : ℚ)) * 12 < (n : ℚ) + 12 := by exact_mod_cast hlow
    have hhighq : (n : ℚ) ≤ (m : ℚ) * 12 := by exact_mod_cast hhigh
    symm
    rw [Int.ceil_eq_iff]
    simp only [Int.cast_natCast]
    constructor
    · rw [lt_div_iff₀ (by norm_num : (0 : ℚ) < 12)]
      linarith
    · rw [div_le_iff₀ (by norm_num : (0 : ℚ) < 12)]
      linarith
  · have hfun : (fun k => RecordingsView.paginatedRecordings l (k + 1))
        = (fun k => (l.drop (k * 12)).take 12) := by
      funext k
      exact jsSlice_page l k
    rw [hfun]
    apply pages_flatten
    rw [hcount]
    omega
  · intro page h1 hle
    obtain ⟨k, rfl⟩ : ∃ k, page = k + 1 := ⟨page - 1, by omega⟩
    have hslice : RecordingsView.paginatedRecordings l (k + 1) = (l.drop (k * 12)).take 12 :=
      jsSlice_page l k
    rw [hslice]
    rw [hcount] at hle
    have hlt : k * 12 < l.length := by omega
    constructor
    · intro hnil
      have hlen := congrArg List.length hnil
      rw [List.length_take, List.length_drop] at hlen
      simp only [List.length_nil] at hlen
      omega
    · rw [List.length_take]
      omega

theorem pagination_partitions_witness :
    RecordingsView.paginatedRecordings (List.range 13) 2 ≠ [] ∧
    (RecordingsView.paginatedRecordings (List.range 13) 2).length ≤ 12 :=
  (pagination_partitions (List.range 13)).2.2.1 2 (by decide) (by decide)

/-- C25, what the code does: with thirteen recordings loaded and page 2 shown, a
successful refresh that brings one recording leaves the page at 2, beyond the
single page there is, and the page shown is empty; the same answer arriving
through the effect of a filter change resets the page to 1 and shows the
recording. -/
theorem handleRefresh_keeps_page :
    (RecordingsView.handleRefresh RecordingsView.exampleAnswer
        RecordingsView.examplePageTwo).page = 2 ∧
    (RecordingsView.handleRefresh RecordingsView.exampleAnswer
        RecordingsView.examplePageTwo).recordings
      = [RecordingsView.validate RecordingsView.exampleRaw] ∧
    RecordingsView.pageCount
      (RecordingsView.handleRefresh RecordingsView.exampleAnswer
        RecordingsView.examplePageTwo).recordings = 1 ∧
    RecordingsView.paginatedRecordings
      (RecordingsView.handleRefresh RecordingsView.exampleAnswer
        RecordingsView.examplePageTwo).recordings
      (RecordingsView.handleRefresh RecordingsView.exampleAnswer
        RecordingsView.examplePageTwo).page = [] ∧
    (RecordingsView.fetchRecordings RecordingsView.exampleAnswer
        RecordingsView.examplePageTwo).page = 1 ∧
    RecordingsView.paginatedRecordings
      (RecordingsView.fetchRecordings RecordingsView.exampleAnswer
        RecordingsView.examplePageTwo).recordings
      (RecordingsView.fetchRecordings RecordingsView.exampleAnswer
        RecordingsView.examplePageTwo).page
      = [RecordingsView.validate RecordingsView.exampleRaw] := by
  have hval : RecordingsView.validatedRecordings RecordingsView.exampleAnswer
      = Except.ok [RecordingsView.validate RecordingsView.exampleRaw] := by
    simp [RecordingsView.validatedRecordings, RecordingsView.exampleAnswer, Response.ok]
  have hrefresh : RecordingsView.handleRefresh RecordingsView.exampleAnswer
      RecordingsView.examplePageTwo
      = { recordings := [RecordingsView.validate RecordingsView.exampleRaw], page := 2,
          loading := false, error := none } := by
    simp [RecordingsView.handleRefresh, hval, RecordingsView.examplePageTwo]
  have hfetch : RecordingsView.fetchRecordings RecordingsView.exampleAnswer
      RecordingsView.examplePageTwo
      = { recordings := [RecordingsView.validate RecordingsView.exampleRaw], page := 1,
          loading := false, error := none } := by
    simp [RecordingsView.fetchRecordings, hval, RecordingsView.examplePageTwo]
  rw [hrefresh, hfetch]
  refine ⟨rfl, rfl, rfl, ?_, rfl, ?_⟩
  · simp [RecordingsView.paginatedRecordings, jsSlice, RecordingsView.startIndex,
      RecordingsView.endIndex, RecordingsView.itemsPerPage]
  · simp [RecordingsView.paginatedRecordings, jsSlice, RecordingsView.startIndex,
      RecordingsView.endIndex, RecordingsView.itemsPerPage]

/-! ## Properties of user administration -/

/-- C26: `handleSaveUser` with a user name that is empty after trimming sets the
form error `El nombre de usuario es obligatorio` and issues no request; when
creating, with a password that is empty after trimming, it sets `La contraseña es
obligatoria para nuevos usuarios` and issues no request; it issues a request only
when both checks pass, and then, with a token stored, it does issue the request
that saves the user. -/
theorem handleSaveUser_validation (fetchSave : FetchCall → FetchOutcome UserManagementPanel.SaveBody)
    (fetchList : FetchCall → FetchOutcome (List User)) (w : AuthWorld)
    (st : UserManagementPanel.State) :
    (jsTrim st.currentUser.username = "" →
      UserManagementPanel.handleSaveUser fetchSave fetchList w st
        = ({ st with formError := "El nombre de usuario es obligatorio" }, [])) ∧
    (jsTrim st.currentUser.username ≠ "" → st.isEditing = false →
      jsTrim st.currentUser.password = "" →
      UserManagementPanel.handleSaveUser fetchSave fetchList w st
        = ({ st with formError := "La contraseña es obligatoria para nuevos usuarios" }, [])) ∧
    ((UserManagementPanel.handleSaveUser fetchSave fetchList w st).2 ≠ [] →
      jsTrim st.currentUser.username ≠ "" ∧
      (st.isEditing = true ∨ jsTrim st.currentUser.password ≠ "")) ∧
    (jsTrim st.currentUser.username ≠ "" →
      (st.isEditing = true ∨ jsTrim st.currentUser.password ≠ "") →
      ∀ token, w.token = some token → token ≠ "" →
      (UserManagementPanel.handleSaveUser fetchSave fetchList w st).2.head?
        = some
          { url := UserManagementPanel.saveUrl st,
            init :=
              { headers := some [("Content-Type", "application/json"),
                                 ("Authorization", "Bearer " ++ token)],
                rest := (UserManagementPanel.saveOptions st).rest } }) := by
  refine ⟨?_, ?_, ?_, ?_⟩
  · intro h
    simp [UserManagementPanel.handleSaveUser, h]
  · intro hname hedit hpass
    simp [UserManagementPanel.handleSaveUser, hname, hedit, hpass]
  · intro hreq
    by_cases hname : jsTrim st.currentUser.username = ""
    · simp [UserManagementPanel.handleSaveUser, hname] at hreq
    · refine ⟨hname, ?_⟩
      by_cases hedit : st.isEditing = true
      · exact Or.inl hedit
      · right
        intro hpass
        have hedit' : st.isEditing = false := by simpa using hedit
        simp [UserManagementPanel.handleSaveUser, hname, hedit', hpass] at hreq
  · intro hname hpass token htoken hne
    have hcheck : (!st.isEditing && jsTrim st.currentUser.password == "") = false := by
      rcases hpass with h | h
      · simp [h]
      · simp [h]
    have hrun : authFetch fetchSave w (UserManagementPanel.saveUrl st)
        (UserManagementPanel.saveOptions st)
        = { requests :=
              [{ url := UserManagementPanel.saveUrl st,
                 init :=
                   { headers := some [("Content-Type", "application/json"),
                                      ("Authorization", "Bearer " ++ token)],
                     rest := (UserManagementPanel.saveOptions st).rest } }],
            outcome := fetchSave
              { url := UserManagementPanel.saveUrl st,
                init :=
                  { headers := some [("Content-Type", "application/json"),
                                     ("Authorization", "Bearer " ++ token)],
                    rest := (UserManagementPanel.saveOptions st).rest } } } := by
      simp [authFetch, htoken, hne, UserManagementPanel.saveOptions, JsRecord.spread,
        JsRecord.set]
    simp only [UserManagementPanel.handleSaveUser, hname, if_false, hcheck, Bool.false_eq_true,
      hrun]
    split <;> simp

theorem handleSaveUser_validation_witness :
    UserManagementPanel.handleSaveUser (fun _ => FetchOutcome.rejected "unreachable")
        (fun _ => FetchOutcome.rejected "unreachable")
        { user := some { id := 1, username := "root", role := 3 }, loading := false,
          token := some "T" }
        UserManagementPanel.exampleBlankName
      = ({ UserManagementPanel.exampleBlankName with
           formError := "El nombre de usuario es obligatorio" }, []) :=
  (handleSaveUser_validation (fun _ => FetchOutcome.rejected "unreachable")
    (fun _ => FetchOutcome.rejected "unreachable")
    { user := some { id := 1, username := "root", role := 3 }, loading := false,
      token := some "T" }
    UserManagementPanel.exampleBlankName).1 (by decide)

/-- C27, what the code does: the delete button of a row is disabled exactly when
the row is the logged-in user; in the list of an operator `ana` (the logged-in
user, whose session still holds the admin role) and the only administrator
`root`, the button in the row of `root`, the last remaining administrator, is
enabled. -/
theorem deleteDisabled_only_current_user :
    (∀ (current user : User),
      UserManagementPanel.deleteDisabled (some current) user = decide (user.id = current.id)) ∧
    UserManagementPanel.isLastAdmin
        [{ id := 1, username := "ana", role := 2 }, { id := 2, username := "root", role := 3 }]
        { id := 2, username := "root", role := 3 } = true ∧
    UserManagementPanel.deleteDisabled (some { id := 1, username := "ana", role := 3 })
        { id := 2, username := "root", role := 3 } = false := by
  exact ⟨fun _ _ => rfl, by decide, by decide⟩

/-! ## Properties of grouping the search results -/

namespace ClothingSearchView

theorem ownProperty_eq_none (grouped : List (String × VideoGroup)) (key : String) :
    ownProperty grouped key = none ↔ key ∉ grouped.map Prod.fst := by
  induction grouped with
  | nil => simp [ownProperty]
  | cons kv rest ih =>
    by_cases h : kv.1 = key
    · simp [ownProperty, List.find?, h]
    · have h' : ¬ key = kv.1 := fun e => h e.symm
      simp only [ownProperty, List.find?, h, decide_False, List.map_cons, List.mem_cons, h',
        false_or] at ih ⊢
      exact ih

theorem filter_path_append (processed : List Detection) (d : Detection) (key : String) :
    (processed ++ [d]).filter (fun x => decide (x.video_path = key))
      = processed.filter (fun x => decide (x.video_path = key))
        ++ (if d.video_path = key then [d] else []) := by
  by_cases h : d.video_path = key
  · simp [List.filter_append, h]
  · simp [List.filter_append, h]

theorem loopBody_invariant (processed : List Detection) (grouped : List (String × VideoGroup))
    (d : Detection)
    (hnd : (grouped.map Prod.fst).Nodup)
    (hent : ∀ kv ∈ grouped, kv.2.path = kv.1 ∧
      kv.2.detections = processed.filter (fun x => decide (x.video_path = kv.1)) ∧
      kv.2.detections_count = kv.2.detections.length ∧
      kv.1 ∈ processed.map Detection.video_path)
    (hcov : ∀ x ∈ processed, x.video_path ∈ grouped.map Prod.fst)
    (hkey : d.video_path ∉ objectPrototypeKeys) :
    ∃ next, loopBody grouped d = Except.ok next ∧
      (next.map Prod.fst).Nodup ∧
      (∀ kv ∈ next, kv.2.path = kv.1 ∧
        kv.2.detections = (processed ++ [d]).filter (fun x => decide (x.video_path = kv.1)) ∧
        kv.2.detections_count = kv.2.detections.length ∧
        kv.1 ∈ (processed ++ [d]).map Detection.video_path) ∧
      (∀ x ∈ processed ++ [d], x.video_path ∈ next.map Prod.fst) := by
  cases hown : ownProperty grouped d.video_path with
  | some g =>
    have hmem : d.video_path ∈ grouped.map Prod.fst := by
      by_contra hno
      rw [(ownProperty_eq_none grouped d.video_path).mpr hno] at hown
      cases hown
    have hkeys : (grouped.map (fun kv =>
        if kv.1 = d.video_path then (kv.1, addToGroup kv.2 d) else kv)).map Prod.fst
        = grouped.map Prod.fst := by
      rw [List.map_map]
      apply List.map_congr_left
      intro kv _
      by_cases h : kv.1 = d.video_path <;> simp [h]
    refine ⟨grouped.map (fun kv =>
        if kv.1 = d.video_path then (kv.1, addToGroup kv.2 d) else kv),
      by simp only [loopBody, hown], ?_, ?_, ?_⟩
    · rw [hkeys]
      exact hnd
    · intro kv' hkv'
      obtain ⟨kv, hkv, rfl⟩ := List.mem_map.mp hkv'
      obtain ⟨hpath, hdet, hcount, hin⟩ := hent kv hkv
      by_cases h : kv.1 = d.video_path
      · simp only [h, if_true]
        refine ⟨?_, ?_, ?_, ?_⟩
        · simp [addToGroup, hpath, h]
        · rw [filter_path_append]
          simp [addToGroup, hdet, h]
        · simp [addToGroup, hcount]
        · simp
      · have h' : ¬ d.video_path = kv.1 := fun e => h e.symm
        simp only [h, if_false]
        refine ⟨hpath, ?_, hcount, ?_⟩
        · rw [filter_path_append]
          simp [hdet, h']
        · rw [List.map_append]
          exact List.mem_append_left _ hin
    · intro x hx
      rw [hkeys]
      rcases List.mem_append.mp hx with hx | hx
      · exact hcov x hx
      · simp only [List.mem_singleton] at hx
        rw [hx]
        exact hmem
  | none =>
    have hnot : d.video_path ∉ grouped.map Prod.fst :=
      (ownProperty_eq_none grouped d.video_path).mp hown
    have hempty : processed.filter (fun x => decide (x.video_path = d.video_path)) = [] := by
      rw [List.filter_eq_nil_iff]
      intro x hx hxd
      have := hcov x hx
      simp only [decide_eq_true_eq] at hxd
      rw [hxd] at this
      exact hnot this
    refine ⟨grouped ++ [(d.video_path, addToGroup (newGroup d) d)],
      by simp only [loopBody, hown, hkey, if_false], ?_, ?_, ?_⟩
    · rw [List.map_append, List.map_singleton]
      exact List.Nodup.append hnd (List.nodup_singleton _)
        (by
          intro a ha hb
          simp only [List.mem_singleton] at hb
          rw [hb] at ha
          exact hnot ha)
    · intro kv hkv
      rcases List.mem_append.mp hkv with hkv | hkv
      · obtain ⟨hpath, hdet, hcount, hin⟩ := hent kv hkv
        have h' : ¬ d.video_path = kv.1 := by
          intro e
          apply hnot
          rw [e]
          exact List.mem_map_of_mem _ hkv
        refine ⟨hpath, ?_, hcount, ?_⟩
        · rw [filter_path_append]
          simp [hdet, h']
        · rw [List.map_append]
          exact List.mem_append_left _ hin
      · simp only [List.mem_singleton] at hkv
        subst hkv
        refine ⟨rfl, ?_, ?_, ?_⟩
        · rw [filter_path_append, hempty]
          simp [addToGroup, newGroup]
        · simp [addToGroup, newGroup]
        · simp
    · intro x hx
      rw [List.map_append]
      rcases List.mem_append.mp hx with hx | hx
      · exact List.mem_append_left _ (hcov x hx)
      · simp only [List.mem_singleton] at hx
        rw [hx]
        exact List.mem_append_right _ (by simp)

theorem groupLoop_invariant (rest : List Detection) :
    ∀ (processed : List Detection) (grouped : List (String × VideoGroup)),
      (grouped.map Prod.fst).Nodup →
      (∀ kv ∈ grouped, kv.2.path = kv.1 ∧
        kv.2.detections = processed.filter (fun x => decide (x.video_path = kv.1)) ∧
        kv.2.detections_count = kv.2.detections.length ∧
        kv.1 ∈ processed.map Detection.video_path) →
      (∀ x ∈ processed, x.video_path ∈ grouped.map Prod.fst) →
      (∀ d ∈ rest, d.video_path ∉ objectPrototypeKeys) →
      ∃ final, groupLoop rest grouped = Except.ok final ∧
        (final.map Prod.fst).Nodup ∧
        (∀ kv ∈ final, kv.2.path = kv.1 ∧
          kv.2.detections
            = (processed ++ rest).filter (fun x => decide (x.video_path = kv.1)) ∧
          kv.2.detections_count = kv.2.detections.length ∧
          kv.1 ∈ (processed ++ rest).map Detection.video_path) ∧
        (∀ x ∈ processed ++ rest, x.video_path ∈ final.map Prod.fst) := by
  induction rest with
  | nil =>
    intro processed grouped hnd hent hcov _
    refine ⟨grouped, rfl, hnd, ?_, ?_⟩
    · simpa using hent
    · simpa using hcov
  | cons d rest ih =>
    intro processed grouped hnd hent hcov hkeys
    obtain ⟨next, hnext, hnd', hent', hcov'⟩ :=
      loopBody_invariant processed grouped d hnd hent hcov (hkeys d (List.mem_cons_self _ _))
    obtain ⟨final, hfinal, h1, h2, h3⟩ :=
      ih (processed ++ [d]) next hnd' hent' hcov'
        (fun x hx => hkeys x (List.mem_cons_of_mem _ hx))
    have happ : processed ++ [d] ++ rest = processed ++ d :: rest := by simp
    rw [happ] at h2 h3
    exact ⟨final, by simp only [groupLoop, hnext, hfinal], h1, h2, h3⟩

theorem objectValues_perm (o : List (String × VideoGroup)) :
    (objectValues o).Perm (o.map Prod.snd) := by
  unfold objectValues
  apply List.Perm.map
  exact (List.Perm.append_right _ (List.mergeSort_perm _ _)).trans
    (List.filter_append_perm _ o)

end ClothingSearchView

/-- C23, what the code does: for a detection whose `video_path` is
`constructor`, the name of a property every object inherits,
`groupResultsByVideo` throws and returns no entry at all. -/
theorem groupResultsByVideo_inherited_key :
    ClothingSearchView.groupResultsByVideo
        [{ video_path := "constructor", confidence := 9 / 10 }]
      = Except.error "Cannot read properties of undefined (reading 'push')" ∧
    ¬ ∃ groups, ClothingSearchView.groupResultsByVideo
        [{ video_path := "constructor", confidence := 9 / 10 }] = Except.ok groups := by
  have hthrow : ClothingSearchView.groupResultsByVideo
      [{ video_path := "constructor", confidence := 9 / 10 }]
      = Except.error "Cannot read properties of undefined (reading 'push')" := by
    simp [ClothingSearchView.groupResultsByVideo, ClothingSearchView.groupLoop,
      ClothingSearchView.loopBody, ClothingSearchView.ownProperty,
      ClothingSearchView.objectPrototypeKeys]
  refine ⟨hthrow, ?_⟩
  rintro ⟨groups, h⟩
  rw [hthrow] at h
  cases h

/-- Off the inherited names grouping does what it is meant to: for every list of
detections none of whose `video_path` is the name of a property inherited from
`Object.prototype`, `groupResultsByVideo` returns exactly one entry per distinct
`video_path` of the input; the entry's detections are the input detections with
that path, in input order, and its `detections_count` is their number. -/
theorem groupResultsByVideo_groups (results : List ClothingSearchView.Detection)
    (hkeys : ∀ d ∈ results, d.video_path ∉ ClothingSearchView.objectPrototypeKeys) :
    ∃ groups, ClothingSearchView.groupResultsByVideo results = Except.ok groups ∧
      (groups.map ClothingSearchView.VideoGroup.path).Nodup ∧
      (∀ path, path ∈ groups.map ClothingSearchView.VideoGroup.path
        ↔ path ∈ results.map ClothingSearchView.Detection.video_path) ∧
      ∀ g ∈ groups,
        g.detections = results.filter (fun d => decide (d.video_path = g.path)) ∧
        g.detections_count = g.detections.length := by
  obtain ⟨final, hfinal, hnd, hent, hcov⟩ :=
    ClothingSearchView.groupLoop_invariant results [] [] (by simp) (by simp) (by simp) hkeys
  simp only [List.nil_append] at hent hcov
  have hperm : (((ClothingSearchView.objectValues final).mergeSort
      (fun a b => decide (b.detections_count ≤ a.detections_count))).Perm
      (final.map Prod.snd)) :=
    (List.mergeSort_perm _ _).trans (ClothingSearchView.objectValues_perm final)
  have hpaths : (final.map Prod.snd).map ClothingSearchView.VideoGroup.path
      = final.map Prod.fst := by
    rw [List.map_map]
    apply List.map_congr_left
    intro kv hkv
    exact (hent kv hkv).1
  refine ⟨(ClothingSearchView.objectValues final).mergeSort
      (fun a b => decide (b.detections_count ≤ a.detections_count)),
    by simp only [ClothingSearchView.groupResultsByVideo, hfinal], ?_, ?_, ?_⟩
  · rw [(hperm.map _).nodup_iff, hpaths]
    exact hnd
  · intro path
    rw [(hperm.map _).mem_iff, hpaths]
    constructor
    · intro hp
      obtain ⟨kv, hkv, rfl⟩ := List.mem_map.mp hp
      exact (hent kv hkv).2.2.2
    · intro hp
      obtain ⟨d, hd, rfl⟩ := List.mem_map.mp hp
      exact hcov d hd
  · intro g hg
    rw [hperm.mem_iff] at hg
    obtain ⟨kv, hkv, rfl⟩ := List.mem_map.mp hg
    obtain ⟨hpath, hdet, hcount, _⟩ := hent kv hkv
    rw [hpath]
    exact ⟨hdet, hcount⟩

theorem groupResultsByVideo_groups_witness :
    ∃ groups, ClothingSearchView.groupResultsByVideo
        [{ video_path := "cam1/2023-12-10/14/a.mp4", confidence := 1 / 2 },
         { video_path := "cam2/2023-12-10/15/b.mp4", confidence := 3 / 4 },
         { video_path := "cam1/2023-12-10/14/a.mp4", confidence := 9 / 10 }]
        = Except.ok groups ∧
      (groups.map ClothingSearchView.VideoGroup.path).Nodup ∧
      (∀ path, path ∈ groups.map ClothingSearchView.VideoGroup.path
        ↔ path ∈ ([{ video_path := "cam1/2023-12-10/14/a.mp4", confidence := 1 / 2 },
                    { video_path := "cam2/2023-12-10/15/b.mp4", confidence := 3 / 4 },
                    { video_path := "cam1/2023-12-10/14/a.mp4", confidence := 9 / 10 }] :
                    List ClothingSearchView.Detection).map
                  ClothingSearchView.Detection.video_path) ∧
      ∀ g ∈ groups,
        g.detections
          = ([{ video_path := "cam1/2023-12-10/14/a.mp4", confidence := 1 / 2 },
              { video_path := "cam2/2023-12-10/15/b.mp4", confidence := 3 / 4 },
              { video_path := "cam1/2023-12-10/14/a.mp4", confidence := 9 / 10 }] :
              List ClothingSearchView.Detection).filter
            (fun d => decide (d.video_path = g.path)) ∧
        g.detections_count = g.detections.length :=
  groupResultsByVideo_groups
    [{ video_path := "cam1/2023-12-10/14/a.mp4", confidence := 1 / 2 },
     { video_path := "cam2/2023-12-10/15/b.mp4", confidence := 3 / 4 },
     { video_path := "cam1/2023-12-10/14/a.mp4", confidence := 9 / 10 }]
    (by decide)

/-- C24: whenever `groupResultsByVideo` returns, its entries are ordered by
number of detections, largest first: every entry has at least as many detections
as each later one, in particular as the next one; and it does return for every
list none of whose `video_path` is the name of an inherited property. -/
theorem groupResultsByVideo_sorted (results : List ClothingSearchView.Detection) :
    (∀ groups, ClothingSearchView.groupResultsByVideo results = Except.ok groups →
      groups.Pairwise (fun a b => b.detections_count ≤ a.detections_count) ∧
      groups.Chain' (fun a b => b.detections_count ≤ a.detections_count)) ∧
    ((∀ d ∈ results, d.video_path ∉ ClothingSearchView.objectPrototypeKeys) →
      ∃ groups, ClothingSearchView.groupResultsByVideo results = Except.ok groups) := by
  constructor
  · intro groups h
    have hsorted : groups.Pairwise (fun a b => b.detections_count ≤ a.detections_count) := by
      unfold ClothingSearchView.groupResultsByVideo at h
      cases hloop : ClothingSearchView.groupLoop results [] with
      | error message => simp [hloop] at h
      | ok grouped =>
        simp only [hloop, Except.ok.injEq] at h
        subst h
        have hs := @List.sorted_mergeSort ClothingSearchView.VideoGroup
          (fun a b => decide (b.detections_count ≤ a.detections_count))
          (by
            intro a b c hab hbc
            simp only [decide_eq_true_eq] at hab hbc ⊢
            omega)
          (by
            intro a b
            simp only [Bool.or_eq_true, decide_eq_true_eq]
            omega)
          (ClothingSearchView.objectValues grouped)
        exact hs.imp (by intro a b hab; simpa using hab)
    exact ⟨hsorted, hsorted.chain'⟩
  · intro hkeys
    obtain ⟨final, hfinal, _⟩ :=
      ClothingSearchView.groupLoop_invariant results [] [] (by simp) (by simp) (by simp) hkeys
    exact ⟨(ClothingSearchView.objectValues final).mergeSort
        (fun a b => decide (b.detections_count ≤ a.detections_count)),
      by simp only [ClothingSearchView.groupResultsByVideo, hfinal]⟩

theorem groupResultsByVideo_sorted_witness :
    ∃ groups, ClothingSearchView.groupResultsByVideo
        [{ video_path := "cam2/2023-12-10/15/b.mp4", confidence := 3 / 4 },
         { video_path := "cam1/2023-12-10/14/a.mp4", confidence := 1 / 2 },
         { video_path := "cam1/2023-12-10/14/a.mp4", confidence := 9 / 10 }]
        = Except.ok groups ∧
      groups.Chain' (fun a b => b.detections_count ≤ a.detections_count) :=
  match (groupResultsByVideo_sorted
      [{ video_path := "cam2/2023-12-10/15/b.mp4", confidence := 3 / 4 },
       { video_path := "cam1/2023-12-10/14/a.mp4", confidence := 1 / 2 },
       { video_path := "cam1/2023-12-10/14/a.mp4", confidence := 9 / 10 }]).2 (by decide) with
  | ⟨groups, h⟩ =>
    ⟨groups, h,
      ((groupResultsByVideo_sorted
        [{ video_path := "cam2/2023-12-10/15/b.mp4", confidence := 3 / 4 },
         { video_path := "cam1/2023-12-10/14/a.mp4", confidence := 1 / 2 },
         { video_path := "cam1/2023-12-10/14/a.mp4", confidence := 9 / 10 }]).1 groups h).2⟩

end Frontend
